import Mathlib

/-!
Shallow embedding of the proctored test-session engine and auto-grading
engine of the interview-portal backend.

Sources embedded:
- app/services/grading_engine.py  (MCQ / coding / SQL grading, session score)
- app/services/session_manager.py (invitation and session state machine)
- app/services/code_execution_service.py (sandbox adapter result handling)
- app/api/v1/sessions.py          (submit-answer and complete-session endpoints)

Modelling conventions:
- Python dicts returned by grading functions are records whose fields are
  wrapped in Option: an outer `none` means the key is absent from the dict
  (key presence matters because the submit endpoint only overwrites columns
  whose keys are present in the grading result).
- Python numbers are embedded as Int/Nat/Rat; float arithmetic is idealized
  as exact rational arithmetic, and Python's round(x, 2) becomes round2
  (round half to even at two decimals).
- Database tables are lists of rows; primary-key update is a map over the list.
- Fallible Python code (raising) is embedded with Except; the external
  sandbox collaborator is an oracle parameter.
-/

/-- Python round-half-to-even to the nearest integer (semantics of round(x)). -/

def roundHalfEven (q : Rat) : Int :=
  if q - (⌊q⌋ : Rat) < 1 / 2 then ⌊q⌋
  else if 1 / 2 < q - (⌊q⌋ : Rat) then ⌊q⌋ + 1
  else if ⌊q⌋ % 2 = 0 then ⌊q⌋ else ⌊q⌋ + 1


/-- Python round(x, 2): round half to even at two decimal places. -/
def round2 (q : Rat) : Rat := (roundHalfEven (q * 100) : Rat) / 100


/-! Question and grading-result data model (grading_engine.py). -/

/-- Closed set of question types dispatched on by grade_submission. -/
inductive QType
  | mcq
  | python
  | javascript
  | sql
  | descriptive
  deriving DecidableEq, Repr


/-- One MCQ option of a question (mcq_options entries carry id and is_correct). -/
structure McqOption where
  id : Nat
  is_correct : Bool
  deriving DecidableEq, Repr


/-- One coding test case (input, expected_output, optional marks, is_hidden). -/
structure TestCase where
  input : String
  expected_output : String
  marks : Option Nat
  is_hidden : Bool
  deriving DecidableEq, Repr


/-- Question row as consumed read-only by the grading engine.
The schema constrains marks to a positive int (Field gt=0 le=100), so marks
is a Nat here; get('marks', 0) default also lands in Nat. -/
structure Question where
  id : Nat
  question_type : QType
  marks : Nat
  is_multiple_correct : Bool
  mcq_options : List McqOption
  test_cases : List TestCase
  sql_schema : String := ""
  sql_seed_data : String := ""
  expected_query_result : Option String := none
  deriving DecidableEq, Repr


/-- Grading-result dict: an outer none on a field means the key is absent.
The inner Option (for is_correct, execution_output, execution_error,
grader_feedback) is Python None stored in a present key. -/
structure GradingResult where
  grading_type : Option String := none
  is_correct : Option (Option Bool) := none
  marks_obtained : Option Rat := none
  max_marks : Option Nat := none
  auto_graded : Option Bool := none
  manually_graded : Option Bool := none
  status : Option String := none
  execution_output : Option (Option String) := none
  execution_error : Option (Option String) := none
  execution_time_ms : Option Nat := none
  test_cases_passed : Option Nat := none
  test_cases_total : Option Nat := none
  grader_feedback : Option (Option String) := none
  deriving DecidableEq, Repr


/-- Candidate answer payload (SubmissionCreate fields used by grading). -/
structure AnswerData where
  code_answer : Option String := none
  mcq_selected_options : Option (List Nat) := none
  text_answer : Option String := none
  deriving DecidableEq, Repr


/-- Set of option ids flagged correct on the question (the set comprehension
in _grade_mcq). -/
def mcqCorrectSet (q : Question) : Finset Nat :=
  ((q.mcq_options.filter (fun o => o.is_correct)).map (fun o => o.id)).toFinset


/-- Embeds GradingEngine._grade_mcq. The multiple-correct branch divides
max_marks by the number of correct options; Python raises ZeroDivisionError
when that number is zero, embedded as Except.error. -/
def grade_mcq (question : Question) (answer_data : AnswerData) : Except String GradingResult :=
  let selected_options : List Nat := (answer_data.mcq_selected_options).getD []
  let correct_options : Finset Nat := mcqCorrectSet question
  let selected_set : Finset Nat := selected_options.toFinset
  if question.is_multiple_correct then
    let total_correct := correct_options.card
    if total_correct = 0 then
      Except.error "ZeroDivisionError: division by zero"
    else
      let correctly_selected := (selected_set ∩ correct_options).card
      let incorrectly_selected := (selected_set \ correct_options).card
      let marks_per_option : Rat := (question.marks : Rat) / (total_correct : Rat)
      let marks_obtained : Rat :=
        max 0 ((correctly_selected : Rat) * marks_per_option -
               (incorrectly_selected : Rat) * marks_per_option)
      Except.ok {
        grading_type := some "auto"
        is_correct := some (some (decide (selected_set = correct_options)))
        marks_obtained := some (round2 marks_obtained)
        max_marks := some question.marks
        auto_graded := some true
        status := some "graded" }
  else
    let is_correct := decide (selected_set = correct_options)
    let marks_obtained : Rat := if is_correct then (question.marks : Rat) else 0
    Except.ok {
      grading_type := some "auto"
      is_correct := some (some is_correct)
      marks_obtained := some (round2 marks_obtained)
      max_marks := some question.marks
      auto_graded := some true
      status := some "graded" }


/-- A 1-mark MCQ in multiple-correct mode with correct options 1, 2, 3 and
incorrect option 4. -/
def mcqQ1 : Question :=
  { id := 1, question_type := QType.mcq, marks := 1, is_multiple_correct := true,
    mcq_options := [⟨1, true⟩, ⟨2, true⟩, ⟨3, true⟩, ⟨4, false⟩], test_cases := [] }


/-- The claim's 9-mark MCQ example: 3 correct options, one incorrect option. -/
def mcqQ9 : Question :=
  { id := 9, question_type := QType.mcq, marks := 9, is_multiple_correct := true,
    mcq_options := [⟨1, true⟩, ⟨2, true⟩, ⟨3, true⟩, ⟨4, false⟩], test_cases := [] }


/-- An MCQ in multiple-correct mode where no option is flagged correct
(bypasses the creation-time validator that requires one). -/
def mcqQnone : Question :=
  { id := 2, question_type := QType.mcq, marks := 5, is_multiple_correct := true,
    mcq_options := [⟨1, false⟩, ⟨2, false⟩], test_cases := [] }


/-! Session-manager data model (session_manager.py, Supabase tables). -/

/-- Row of the tests table (fields the session/grading engine reads). -/
structure Test where
  id : Nat
  duration_minutes : Nat
  total_marks : Int
  is_published : Bool
  deriving DecidableEq, Repr


/-- Row of the test_invitations table. -/
structure Invitation where
  id : Nat
  test_id : Nat
  candidate_email : String
  candidate_name : String
  invitation_token : String
  expires_at : Nat
  is_used : Bool
  deriving DecidableEq, Repr


/-- Session status enum; paused is declared but unreachable. -/
inductive SStatus
  | active
  | completed
  | expired
  | terminated
  | paused
  deriving DecidableEq, Repr


/-- Row of the test_sessions table. Timestamps are Nats (seconds). -/
structure Session where
  id : Nat
  invitation_id : Nat
  test_id : Nat
  candidate_email : String
  candidate_name : String
  session_token : String
  status : SStatus
  is_active : Bool
  is_completed : Bool
  is_expired : Bool
  can_resume : Bool
  started_at : Nat
  expires_at : Nat
  time_remaining_seconds : Nat
  ip_address : Option String
  user_agent : Option String
  last_activity_at : Option Nat
  ended_at : Option Nat
  admin_comments : Option String
  total_marks : Int
  total_marks_obtained : Rat
  percentage_score : Rat
  deriving DecidableEq, Repr


/-- Row of the submissions table (columns written by the submit endpoint and
the grading result filter). -/
structure Submission where
  id : Nat
  session_id : Nat
  question_id : Nat
  question_type : QType
  code_answer : Option String
  mcq_selected_options : Option (List Nat)
  text_answer : Option String
  max_marks : Nat
  status : String
  execution_error : Option String
  execution_output : Option String
  is_correct : Option Bool
  marks_obtained : Rat
  test_cases_passed : Nat
  test_cases_total : Nat
  grader_feedback : Option String
  execution_time_ms : Option Nat
  auto_graded : Option Bool
  manually_graded : Option Bool
  deriving DecidableEq, Repr


/-- The persistent store: one list per table, plus an id allocator for
inserted rows. -/
structure Db where
  invitations : List Invitation
  sessions : List Session
  tests : List Test
  questions : List Question
  submissions : List Submission
  next_id : Nat
  deriving DecidableEq, Repr


/-- Single-row update keyed by session id (supabase update().eq('id', ...)). -/
def update_session (db : Db) (session_id : Nat) (f : Session → Session) : Db :=
  { db with sessions := db.sessions.map (fun s => if s.id == session_id then f s else s) }


/-- Single-row update keyed by invitation id. -/
def update_invitation (db : Db) (invitation_id : Nat) (f : Invitation → Invitation) : Db :=
  { db with
    invitations := db.invitations.map (fun i => if i.id == invitation_id then f i else i) }


/-- Sessions of an invitation excluding terminated ones (the
.eq('invitation_id', ...).neq('status', 'terminated') query). -/
def non_terminated_sessions (db : Db) (invitation_id : Nat) : List Session :=
  db.sessions.filter
    (fun s => s.invitation_id == invitation_id && !(s.status == SStatus.terminated))


/-- Result dict of SessionManager.validate_invitation. -/
inductive InvValidation
  | invalid (error : String)
  | valid_resuming (invitation : Invitation) (session : Session)
  | valid (invitation : Invitation)
  deriving DecidableEq, Repr


/-- Embeds SessionManager.validate_invitation (read-only). -/
def validate_invitation (db : Db) (invitation_token : String) (now : Nat) : InvValidation :=
  match db.invitations.find? (fun i => i.invitation_token == invitation_token) with
  | none => InvValidation.invalid "Invalid invitation token"
  | some invitation =>
    if invitation.is_used then
      let existing := non_terminated_sessions db invitation.id
      match existing.filter (fun s => !s.is_completed) with
      | s :: _ => InvValidation.valid_resuming invitation s
      | [] => InvValidation.invalid
          "This invitation has already been used. Please contact the administrator."
    else if invitation.expires_at < now then
      InvValidation.invalid "This invitation has expired."
    else
      match db.tests.find? (fun t => t.id == invitation.test_id) with
      | none => InvValidation.invalid
          "This test has not been published yet. Please contact the administrator."
      | some test =>
        if !test.is_published then
          InvValidation.invalid
            "This test has not been published yet. Please contact the administrator."
        else
          InvValidation.valid invitation


/-- Result dict of SessionManager.start_session. -/
inductive StartResult
  | failure (error : String)
  | success (session : Session) (resumed : Bool)
  deriving DecidableEq, Repr


/-- Embeds SessionManager.start_session: validate, resume when signalled,
defensively re-check for an existing non-terminated session, otherwise insert
a fresh active session and mark the invitation used. -/
def start_session (db : Db) (invitation_token : String) (now : Nat)
    (ip_address user_agent : Option String) : StartResult × Db :=
  match validate_invitation db invitation_token now with
  | InvValidation.invalid e => (StartResult.failure e, db)
  | InvValidation.valid_resuming _ s => (StartResult.success s true, db)
  | InvValidation.valid invitation =>
    match non_terminated_sessions db invitation.id with
    | s :: _ =>
      if !s.is_completed then (StartResult.success s true, db)
      else (StartResult.failure
        "This test has already been completed. Contact administrator to reset.", db)
    | [] =>
      match db.tests.find? (fun t => t.id == invitation.test_id) with
      | none => (StartResult.failure "Test not found", db)
      | some test =>
        let session : Session := {
          id := db.next_id
          invitation_id := invitation.id
          test_id := invitation.test_id
          candidate_email := invitation.candidate_email
          candidate_name := invitation.candidate_name
          session_token := "session_" ++ toString db.next_id
          status := SStatus.active
          is_active := true
          is_completed := false
          is_expired := false
          can_resume := false
          started_at := now
          expires_at := now + test.duration_minutes * 60
          time_remaining_seconds := test.duration_minutes * 60
          ip_address := ip_address
          user_agent := user_agent
          last_activity_at := none
          ended_at := none
          admin_comments := none
          total_marks := test.total_marks
          total_marks_obtained := 0
          percentage_score := 0 }
        let db1 := { db with sessions := db.sessions ++ [session], next_id := db.next_id + 1 }
        let db2 := update_invitation db1 invitation.id (fun i => { i with is_used := true })
        (StartResult.success session false, db2)


/-- Embeds SessionManager.expire_session's row update. -/
def expire_session_row (now : Nat) (s : Session) : Session :=
  { s with status := SStatus.expired, is_active := false, is_expired := true,
           ended_at := some now }


/-- Embeds SessionManager.complete_session's row update. -/
def complete_session_row (now : Nat) (s : Session) : Session :=
  { s with status := SStatus.completed, is_active := false, is_completed := true,
           ended_at := some now }


/-- Result dict of SessionManager.validate_session. -/
inductive SessValidation
  | invalid (error : String)
  | valid (session : Session)
  deriving DecidableEq, Repr


/-- Embeds SessionManager.validate_session: lookup, completed check, lazy
expiry (writes the expired transition before failing), else touch
last_activity_at and return the pre-update row. -/
def validate_session (db : Db) (session_token : String) (now : Nat) :
    SessValidation × Db :=
  match db.sessions.find? (fun s => s.session_token == session_token) with
  | none => (SessValidation.invalid "Invalid session", db)
  | some session =>
    if session.is_completed then
      (SessValidation.invalid "Test already completed", db)
    else if session.expires_at < now then
      (SessValidation.invalid "Test session expired",
       update_session db session.id (expire_session_row now))
    else
      (SessValidation.valid session,
       update_session db session.id (fun s => { s with last_activity_at := some now }))


/-- Embeds SessionManager.complete_session: unconditional single-row update,
returning the updated row when one matched. -/
def complete_session (db : Db) (session_id : Nat) (now : Nat) : Option Session × Db :=
  let db1 := update_session db session_id (complete_session_row now)
  ((db1.sessions.filter (fun s => s.id == session_id)).head?, db1)


/-- Embeds SessionManager.terminate_session. -/
def terminate_session (db : Db) (session_id : Nat) (reason : String) (now : Nat) : Db :=
  update_session db session_id (fun s =>
    { s with status := SStatus.terminated, is_active := false, ended_at := some now,
             admin_comments := some reason })


/-- Embeds SessionManager.reset_session: terminate the first non-terminated
session of the invitation (when one exists), then clear is_used. -/
def reset_session (db : Db) (invitation_id : Nat) (reason : String) : Db :=
  let db1 :=
    match non_terminated_sessions db invitation_id with
    | old :: _ => update_session db old.id (fun s =>
        { s with status := SStatus.terminated, is_active := false,
                 admin_comments := some ("Reset by admin: " ++ reason) })
    | [] => db
  update_invitation db1 invitation_id (fun i => { i with is_used := false })


/-! Session score aggregation (GradingEngine.calculate_session_score). -/

/-- Return dict of calculate_session_score. -/
structure ScoreSummary where
  total_marks_obtained : Rat
  total_marks : Int
  percentage_score : Rat
  graded_count : Nat
  total_questions : Nat
  deriving DecidableEq, Repr


/-- Embeds GradingEngine.calculate_session_score: sum marks over graded
submissions, take the test's total_marks (0 when the session or test row is
missing), fall back to summing submissions' max_marks when that total is 0,
guard the percentage against a zero total, and persist the three values
(rounded to two decimals for the two non-integers) onto the session row. -/
def calculate_session_score (db : Db) (session_id : Nat) : ScoreSummary × Db :=
  let submissions := db.submissions.filter (fun s => s.session_id == session_id)
  let total_marks_obtained : Rat :=
    ((submissions.filter (fun s => s.status == "graded")).map (fun s => s.marks_obtained)).sum
  let test_id : Option Nat :=
    (db.sessions.find? (fun s => s.id == session_id)).map (fun s => s.test_id)
  let total_from_test : Int :=
    match test_id with
    | none => 0
    | some tid =>
      match db.tests.find? (fun t => t.id == tid) with
      | none => 0
      | some t => t.total_marks
  let total_marks : Int :=
    if total_from_test = 0 then (submissions.map (fun s => (s.max_marks : Int))).sum
    else total_from_test
  let percentage : Rat :=
    if 0 < total_marks then total_marks_obtained / (total_marks : Rat) * 100 else 0
  let db1 := update_session db session_id (fun s =>
    { s with total_marks_obtained := round2 total_marks_obtained,
             total_marks := total_marks,
             percentage_score := round2 percentage })
  ({ total_marks_obtained := round2 total_marks_obtained
     total_marks := total_marks
     percentage_score := round2 percentage
     graded_count := (submissions.filter (fun s => s.status == "graded")).length
     total_questions := submissions.length }, db1)


/-! The complete-session endpoint (sessions.py complete_session). -/

/-- Embeds the POST /sessions/.../complete endpoint: direct lookup, the
completed/expired idempotence guard, validate_session (which may lazily
expire), re-fetch on validation failure, then the manager's complete_session
followed by the final score recalculation. Except.error carries the
HTTPException detail; Except.ok carries the returned session row (the
manager's result, read before rescoring). -/
def complete_session_endpoint (db : Db) (session_token : String) (now : Nat) :
    Except String (Option Session) × Db :=
  match db.sessions.find? (fun s => s.session_token == session_token) with
  | none => (Except.error "Invalid session token", db)
  | some session_row =>
    if session_row.is_completed || session_row.status == SStatus.completed ||
        session_row.status == SStatus.expired then
      (Except.ok (some session_row), db)
    else
      match validate_session db session_token now with
      | (SessValidation.invalid e, db1) =>
        match db1.sessions.find? (fun s => s.session_token == session_token) with
        | some fresh =>
          if fresh.is_completed then (Except.ok (some fresh), db1)
          else (Except.error e, db1)
        | none => (Except.error e, db1)
      | (SessValidation.valid session, db1) =>
        let (result_session, db2) := complete_session db1 session.id now
        let db3 := (calculate_session_score db2 session.id).2
        (Except.ok result_session, db3)


/-! Claim C2: lazy expiry of sessions. -/

/-- Helper: the status-flag projection observed by the expiry claim. -/
def session_flags (r : Session) : SStatus × Bool × Bool × Bool :=
  (r.status, r.is_active, r.is_expired, r.is_completed)


/-- A session one second past its deadline, still marked active. -/
def sessC2 : Session :=
  { id := 7, invitation_id := 3, test_id := 1, candidate_email := "c@example.com",
    candidate_name := "C", session_token := "session_c2", status := SStatus.active,
    is_active := true, is_completed := false, is_expired := false, can_resume := false,
    started_at := 0, expires_at := 100, time_remaining_seconds := 1800,
    ip_address := none, user_agent := none, last_activity_at := none, ended_at := none,
    admin_comments := none, total_marks := 10, total_marks_obtained := 0,
    percentage_score := 0 }


/-- The store holding only sessC2. -/
def dbC2 : Db :=
  { invitations := [], sessions := [sessC2], tests := [], questions := [],
    submissions := [], next_id := 8 }


/-! Claim C4: terminal states. The completed/expired guard of the complete
endpoint does not cover terminated sessions. -/

/-- A published 30-minute test worth 10 marks. -/
def testT : Test := { id := 1, duration_minutes := 30, total_marks := 10, is_published := true }


/-- A used invitation whose session was terminated by an admin. -/
def invC4 : Invitation :=
  { id := 1, test_id := 1, candidate_email := "c@example.com", candidate_name := "C",
    invitation_token := "invite_c4", expires_at := 1000, is_used := true }


/-- A terminated (admin action), not completed, not yet expired session. -/
def sessC4 : Session :=
  { id := 1, invitation_id := 1, test_id := 1, candidate_email := "c@example.com",
    candidate_name := "C", session_token := "session_c4", status := SStatus.terminated,
    is_active := false, is_completed := false, is_expired := false, can_resume := false,
    started_at := 0, expires_at := 1000, time_remaining_seconds := 1800,
    ip_address := none, user_agent := none, last_activity_at := none, ended_at := some 50,
    admin_comments := some "terminated_by_admin", total_marks := 10,
    total_marks_obtained := 0, percentage_score := 0 }


/-- The store holding the terminated session. -/
def dbC4 : Db :=
  { invitations := [invC4], sessions := [sessC4], tests := [testT], questions := [],
    submissions := [], next_id := 2 }


/-- An unused but already-expired invitation (expires_at 10). -/
def invC1 : Invitation :=
  { id := 5, test_id := 1, candidate_email := "c@example.com", candidate_name := "C",
    invitation_token := "invite_c1", expires_at := 10, is_used := false }


/-- An active, not completed session already existing for invC1 (the state a
crash between the session insert and the is_used update leaves behind). -/
def sessC1 : Session :=
  { id := 6, invitation_id := 5, test_id := 1, candidate_email := "c@example.com",
    candidate_name := "C", session_token := "session_c1", status := SStatus.active,
    is_active := true, is_completed := false, is_expired := false, can_resume := false,
    started_at := 0, expires_at := 2000, time_remaining_seconds := 1800,
    ip_address := none, user_agent := none, last_activity_at := none, ended_at := none,
    admin_comments := none, total_marks := 10, total_marks_obtained := 0,
    percentage_score := 0 }


/-- Store with the expired unused invitation and its live session. -/
def dbC1 : Db :=
  { invitations := [invC1], sessions := [sessC1], tests := [testT], questions := [],
    submissions := [], next_id := 7 }


/-- The used-invitation variant of invC1, with a fresh token. -/
def invC1w : Invitation :=
  { id := 5, test_id := 1, candidate_email := "c@example.com", candidate_name := "C",
    invitation_token := "invite_c1w", expires_at := 10, is_used := true }


/-- Store with the used invitation and its live session. -/
def dbC1w : Db :=
  { invitations := [invC1w], sessions := [sessC1], tests := [testT], questions := [],
    submissions := [], next_id := 7 }


/-! Claim C10: the success flag of code execution
(code_execution_service.py execute_code / execute_code_local). -/

/-- Python str.strip(): drop leading and trailing whitespace. Implemented
structurally on the character list so concrete values reduce. -/
def pyStrip (s : String) : String :=
  String.mk (((s.data.dropWhile Char.isWhitespace).reverse.dropWhile Char.isWhitespace).reverse)


/-- The run part of a 200 Piston response (stdout, stderr, exit code,
runtime); code is absent when the JSON lacks the key. -/
structure PistonRun where
  stdout : String
  stderr : String
  code : Option Int
  runtime : Nat
  deriving DecidableEq, Repr


/-- A 200 Piston execute response: compile outputs plus the run part. -/
structure PistonResponse where
  compile_stdout : String
  compile_stderr : String
  run : PistonRun
  deriving DecidableEq, Repr


/-- The dict returned by execute_code / execute_code_local. -/
structure ExecResult where
  success : Bool
  output : String
  error : String
  stdout : String
  stderr : String
  runtime : Nat
  exit_code : Int
  deriving DecidableEq, Repr


/-- Embeds the 200-response branch of execute_code: combine and strip the
compile and run streams, then success iff run exit code (default 1 when
absent) is 0 and the stripped combined stderr is empty. -/
def process_piston_response (r : PistonResponse) : ExecResult :=
  let stdout := pyStrip (r.compile_stdout ++ r.run.stdout)
  let stderr := pyStrip (r.compile_stderr ++ r.run.stderr)
  let success := (r.run.code.getD 1 == 0) && (stderr == "")
  { success := success
    output := if stdout == "" then stderr else stdout
    error := if stderr == "" then "" else stderr
    stdout := stdout
    stderr := stderr
    runtime := r.run.runtime
    exit_code := r.run.code.getD 0 }


/-- Embeds the result construction of execute_code_local after the
subprocess run: success iff exit code 0 and the raw (unstripped) stderr is
exactly empty. -/
def execute_code_local_result (exit_code : Int) (stdout stderr : String) (runtime : Nat) :
    ExecResult :=
  let success := (exit_code == 0) && (stderr == "")
  { success := success
    output := if stdout == "" then stderr else stdout
    error := if stderr == "" then "" else stderr
    stdout := stdout
    stderr := stderr
    runtime := runtime
    exit_code := exit_code }


/-- A Piston response whose program printed "42" and wrote a single space to
stderr, exiting 0. -/
def pistonWs : PistonResponse :=
  { compile_stdout := "", compile_stderr := "",
    run := { stdout := "42", stderr := " ", code := some 0, runtime := 1 } }


/-! Claim C7: SQL row-set comparison (_compare_sql_results). -/

/-- A SQL cell value as found in the parsed JSON row objects. -/
inductive SqlValue
  | vInt (n : Int)
  | vStr (s : String)
  | vNull
  deriving DecidableEq, Repr


/-- Python str(v) on a cell value. -/
def SqlValue.pyStr : SqlValue → String
  | SqlValue.vInt n => toString n
  | SqlValue.vStr s => s
  | SqlValue.vNull => "None"


/-- A result row: a dict of column name to value (association list). -/
abbrev SqlRow := List (String × SqlValue)


/-- Python string comparison: lexicographic on code points. -/
def charsLt : List Char → List Char → Bool
  | [], [] => false
  | [], _ :: _ => true
  | _ :: _, [] => false
  | c :: cs, d :: ds => if c == d then charsLt cs ds else decide (c < d)


/-- Python str less-than. -/
def strLt (a b : String) : Bool := charsLt a.data b.data


/-- Python tuple less-than on (column, value) string pairs. -/
def pairLt (x y : String × String) : Bool :=
  if x.1 == y.1 then strLt x.2 y.2 else strLt x.1 y.1


/-- Companion non-strict order used for sorting pairs. -/
def pairLe (x y : String × String) : Bool := !(pairLt y x)


/-- Python list less-than on normalized rows (first differing element wins). -/
def rowLt : List (String × String) → List (String × String) → Bool
  | [], [] => false
  | [], _ :: _ => true
  | _ :: _, [] => false
  | x :: xs, y :: ys => if x == y then rowLt xs ys else pairLt x y


/-- Companion non-strict order used for sorting rows. -/
def rowLe (a b : List (String × String)) : Bool := !(rowLt b a)


/-- Insert into a sorted list (the sorting primitive used by the model of
Python sorted()). -/
def insertSorted {α : Type} (le : α → α → Bool) (x : α) : List α → List α
  | [] => [x]
  | y :: ys => if le x y then x :: y :: ys else y :: insertSorted le x ys


/-- Insertion sort modelling Python sorted(). -/
def sortBy {α : Type} (le : α → α → Bool) : List α → List α
  | [] => []
  | x :: xs => insertSorted le x (sortBy le xs)


/-- Python str.lower(), structurally on the character list. -/
def pyLower (s : String) : String := String.mk (s.data.map Char.toLower)


/-- Embeds normalize_row: sorted tuple of (column, lowercased str(value)). -/
def normalize_row (row : SqlRow) : List (String × String) :=
  sortBy pairLe (row.map (fun kv => (kv.1, pyLower kv.2.pyStr)))


/-- Embeds _compare_sql_results on two parsed row-sets: the raw-equality
shortcut, the row-count check, then equality of the sorted normalized
collections. (The surrounding JSON extraction of the actual output string is
string plumbing around this core.) -/
def compare_sql_results (actual expected : List SqlRow) : Bool :=
  if actual == expected then true
  else if actual.length != expected.length then false
  else sortBy rowLe (actual.map normalize_row) ==
       sortBy rowLe (expected.map normalize_row)


/-- Two rows with integer cells, in one order. -/
def rowsA : List SqlRow :=
  [[("id", SqlValue.vInt 5), ("name", SqlValue.vStr "Alice")],
   [("id", SqlValue.vInt 6), ("name", SqlValue.vStr "Bob")]]


/-- The same rows with string-typed numbers, different case, different
column order, and different row order. -/
def rowsB : List SqlRow :=
  [[("name", SqlValue.vStr "bob"), ("id", SqlValue.vStr "6")],
   [("id", SqlValue.vStr "5"), ("name", SqlValue.vStr "alice")]]


/-- A row-set with a different row count. -/
def rowsC : List SqlRow :=
  [[("id", SqlValue.vInt 5), ("name", SqlValue.vStr "Alice")]]


/-- The same values under a different column name. -/
def rowsD : List SqlRow :=
  [[("key", SqlValue.vInt 5), ("name", SqlValue.vStr "Alice")],
   [("key", SqlValue.vInt 6), ("name", SqlValue.vStr "Bob")]]


/-! Claim C8: SQL grading surfaces sandbox failures (_grade_sql). -/

/-- The dict returned by execute_sql_with_schema, as read by _grade_sql:
success flag, output and error values (absent keys modelled as none; the
error read uses get('error', 'Execution failed')), runtime. -/
structure SqlExecOutcome where
  success : Bool
  output : Option String
  error : Option String
  runtime : Nat
  deriving DecidableEq, Repr


/-- Embeds GradingEngine._grade_sql given the sandbox call's outcome (the
call itself is the external collaborator: Except.error models the try/except
around it). The comparison of the raw output string against the stored
expected result is the cmp parameter; its row-set core, after JSON
extraction, is compare_sql_results. -/
def grade_sql (outcome : Except String SqlExecOutcome)
    (cmp : Option String → Option String → Bool)
    (expected_query_result : Option String)
    (test_cases : List TestCase) (max_marks : Nat) : GradingResult :=
  match outcome with
  | Except.error e =>
    let error_msg := "SQL Execution Error: " ++ e
    { grading_type := some "auto"
      is_correct := some (some false)
      marks_obtained := some 0
      max_marks := some max_marks
      auto_graded := some true
      status := some "error"
      execution_output := some (some error_msg)
      execution_error := some (some error_msg)
      execution_time_ms := some 0
      test_cases_passed := some 0
      test_cases_total := some test_cases.length }
  | Except.ok res =>
    if !res.success then
      let error_msg := res.error.getD "Execution failed"
      { grading_type := some "auto"
        is_correct := some (some false)
        marks_obtained := some 0
        max_marks := some max_marks
        auto_graded := some true
        status := some "error"
        execution_output := some (some error_msg)
        execution_error := some (some error_msg)
        execution_time_ms := some res.runtime
        test_cases_passed := some 0
        test_cases_total := some test_cases.length }
    else
      let query_result := res.output
      let is_correct := cmp query_result expected_query_result
      { grading_type := some "auto"
        is_correct := some (some is_correct)
        marks_obtained := some (if is_correct then (max_marks : Rat) else 0)
        max_marks := some max_marks
        auto_graded := some true
        status := some "graded"
        execution_output := some query_result
        execution_time_ms := some res.runtime
        test_cases_passed := some (if is_correct then 1 else 0)
        test_cases_total := some 1 }


/-- The sandbox outcome of a failed SQL run. -/
def sqlFailOutcome : SqlExecOutcome :=
  { success := false, output := none, error := some "no such table: employees", runtime := 3 }


/-! Claim C6: session score aggregation. -/

/-- Submissions of one session (the .eq('session_id', ...) query). -/
def session_submissions (db : Db) (sid : Nat) : List Submission :=
  db.submissions.filter (fun s => s.session_id == sid)


/-- The claim's obtained total: sum of marks_obtained over exactly the
submissions whose status is graded. -/
def spec_graded_sum (db : Db) (sid : Nat) : Rat :=
  (((session_submissions db sid).filter (fun s => s.status == "graded")).map
    (fun s => s.marks_obtained)).sum


/-- The claim's total: the parent test's total_marks, falling back to the
sum of submissions' max_marks exactly when that total is missing or zero. -/
def spec_total_marks (db : Db) (sid : Nat) : Int :=
  match (db.sessions.find? (fun s => s.id == sid)).bind
      (fun srow => db.tests.find? (fun t => t.id == srow.test_id)) with
  | some t =>
    if t.total_marks = 0 then
      ((session_submissions db sid).map (fun s => (s.max_marks : Int))).sum
    else t.total_marks
  | none => ((session_submissions db sid).map (fun s => (s.max_marks : Int))).sum


/-- The claim's percentage: obtained/total x 100, zero when the total is not
positive. -/
def spec_percentage (db : Db) (sid : Nat) : Rat :=
  if 0 < spec_total_marks db sid then
    spec_graded_sum db sid / (spec_total_marks db sid : Rat) * 100
  else 0


/-- A 3-mark test whose session has one graded submission worth 1 of 3. -/
def testC6 : Test := { id := 3, duration_minutes := 30, total_marks := 3, is_published := true }


/-- The session row being scored. -/
def sessC6 : Session :=
  { id := 11, invitation_id := 9, test_id := 3, candidate_email := "c@example.com",
    candidate_name := "C", session_token := "session_c6", status := SStatus.active,
    is_active := true, is_completed := false, is_expired := false, can_resume := false,
    started_at := 0, expires_at := 2000, time_remaining_seconds := 1800,
    ip_address := none, user_agent := none, last_activity_at := none, ended_at := none,
    admin_comments := none, total_marks := 3, total_marks_obtained := 0,
    percentage_score := 0 }


/-- A graded submission with 1 mark obtained out of 3. -/
def subC6 : Submission :=
  { id := 1, session_id := 11, question_id := 1, question_type := QType.mcq,
    code_answer := none, mcq_selected_options := some [1], text_answer := none,
    max_marks := 3, status := "graded", execution_error := none, execution_output := none,
    is_correct := some false, marks_obtained := 1, test_cases_passed := 0,
    test_cases_total := 0, grader_feedback := none, execution_time_ms := none,
    auto_graded := some true, manually_graded := none }


/-- Store for the 1-of-3 scoring scenario. -/
def dbC6 : Db :=
  { invitations := [], sessions := [sessC6], tests := [testC6], questions := [],
    submissions := [subC6], next_id := 20 }


/-! Claim C3: the submit-answer endpoint's upsert and grading pipeline. -/

/-- Characters kept by the whitespace-collapsing output comparison. -/
def dropSpaces (s : String) : String := String.mk (s.data.filter (fun c => !(c == ' ')))


/-- Digits of a decimal string to a Nat (none when a non-digit appears). -/
def digitsToNat : List Char → Option Nat
  | [] => some 0
  | c :: cs =>
    if c.isDigit then
      (digitsToNat cs).map (fun n => (c.toNat - 48) * 10 ^ cs.length + n)
    else none


/-- Python float(...) on the plain decimal strings the comparator meets
(optional sign, digits, optional fraction), idealized to a rational; none
models ValueError. Exponent and special forms are not modelled. -/
def pyFloatParse (s : String) : Option Rat :=
  let parseUnsigned : List Char → Option Rat := fun l =>
    match l.splitOn '.' with
    | [ip] =>
      if ip.isEmpty then none
      else (digitsToNat ip).map (fun n => (n : Rat))
    | [ip, fp] =>
      if ip.isEmpty && fp.isEmpty then none
      else
        match digitsToNat ip, digitsToNat fp with
        | some n, some f => some ((n : Rat) + (f : Rat) / ((10 : Rat) ^ fp.length))
        | _, _ => none
    | _ => none
  match s.data with
  | [] => none
  | '-' :: rest => (parseUnsigned rest).map (fun q => -q)
  | '+' :: rest => parseUnsigned rest
  | l => parseUnsigned l


/-- One line list of a normalized output (split on newline). -/
def splitLines (s : String) : List String := (s.data.splitOn '\n').map String.mk


/-- Embeds GradingEngine._compare_outputs: exact match after strip+lower,
then space-collapsed match, then numeric match within 1e-6, then
line-by-line comparison ignoring blank lines. -/
def compare_outputs (actual expected : String) : Bool :=
  let actual_normalized := pyLower (pyStrip actual)
  let expected_normalized := pyLower (pyStrip expected)
  if actual_normalized == expected_normalized then true
  else if dropSpaces actual_normalized == dropSpaces expected_normalized then true
  else
    match pyFloatParse actual_normalized, pyFloatParse expected_normalized with
    | some a, some e => decide (|a - e| < 1 / 1000000)
    | _, _ =>
      let actual_lines := ((splitLines actual_normalized).map pyStrip).filter (fun l => !(l == ""))
      let expected_lines := ((splitLines expected_normalized).map pyStrip).filter (fun l => !(l == ""))
      actual_lines == expected_lines


/-- The sandbox collaborators a submit call talks to: execute_code on a
source text, the heuristic test harness rewriter _wrap_code_for_testing
(string/regex surgery whose output only feeds the executor), the SQL
execution of (schema, seed, query), and _compare_sql_results at the
raw-value level (its row-set core is compare_sql_results). -/
structure SandboxOracle where
  run : String → ExecResult
  wrap : String → String → String
  sql : String → String → String → Except String SqlExecOutcome
  sql_cmp : Option String → Option String → Bool


/-- Embeds GradingEngine._grade_general_coding: run the original code for
its output, return an executed-only result when no test cases exist,
otherwise run each test case through the wrapped code, award per-test marks
(even distribution unless the case specifies marks, null treated as absent),
cap at max marks and round. The execution_error key is absent from the
test-case-path result. -/
def grade_general_coding (exec : String → ExecResult) (wrap : String → String → String)
    (code : String) (test_cases : List TestCase) (max_marks : Nat) : GradingResult :=
  let original_exec := exec code
  let original_output := original_exec.output
  if test_cases.isEmpty then
    { grading_type := some "auto"
      is_correct := some (some false)
      marks_obtained := some 0
      max_marks := some max_marks
      auto_graded := some false
      status := some "executed"
      execution_output := some (some original_output)
      execution_error := some (some original_exec.error)
      execution_time_ms := some original_exec.runtime
      test_cases_passed := some 0
      test_cases_total := some 0 }
  else
    let marks_per_test : Rat := (max_marks : Rat) / (test_cases.length : Rat)
    let step := fun (acc : Nat × Rat × Nat) (tc : TestCase) =>
      let res := exec (wrap code tc.input)
      let time := acc.2.2 + res.runtime
      if !res.success || !(res.error == "") then (acc.1, acc.2.1, time)
      else
        let is_match := compare_outputs (pyStrip res.output) (pyStrip tc.expected_output)
        let test_marks : Rat := match tc.marks with
          | some m => (m : Rat)
          | none => marks_per_test
        if is_match then (acc.1 + 1, acc.2.1 + test_marks, time)
        else (acc.1, acc.2.1, time)
    let r := test_cases.foldl step (0, 0, 0)
    let passed_count := r.1
    let total_marks_scored := r.2.1
    let total_execution_time := r.2.2
    { grading_type := some "auto"
      is_correct := some (some (passed_count == test_cases.length))
      marks_obtained := some (round2 (min total_marks_scored (max_marks : Rat)))
      max_marks := some max_marks
      auto_graded := some true
      status := some "graded"
      execution_output := some (some original_output)
      execution_time_ms := some total_execution_time
      test_cases_passed := some passed_count
      test_cases_total := some test_cases.length }


/-- Embeds GradingEngine._grade_coding: the no-code early return (whose
result dict has neither execution_output nor execution_time_ms keys), then
the SQL/general dispatch. -/
def grade_coding (oracle : SandboxOracle) (question_data : Question)
    (answer_data : AnswerData) : GradingResult :=
  let code := answer_data.code_answer.getD ""
  let test_cases := question_data.test_cases
  let max_marks := question_data.marks
  if code == "" || pyStrip code == "" then
    { grading_type := some "auto"
      is_correct := some (some false)
      marks_obtained := some 0
      max_marks := some max_marks
      auto_graded := some true
      status := some "graded"
      execution_error := some (some "No code provided")
      test_cases_passed := some 0
      test_cases_total := some test_cases.length }
  else if question_data.question_type == QType.sql then
    grade_sql (oracle.sql question_data.sql_schema question_data.sql_seed_data code)
      oracle.sql_cmp question_data.expected_query_result test_cases max_marks
  else
    grade_general_coding oracle.run oracle.wrap code test_cases max_marks


/-- Embeds GradingEngine._grade_descriptive_pending (no max_marks key). -/
def grade_descriptive_pending : GradingResult :=
  { grading_type := some "manual"
    is_correct := some none
    marks_obtained := some 0
    auto_graded := some false
    manually_graded := some false
    status := some "pending" }


/-- Embeds GradingEngine.grade_submission's dispatch on question_type; only
the MCQ branch can raise (ZeroDivisionError). The grading-log side write is
an audit effect outside the claims and is not modelled. -/
def grade_submission (oracle : SandboxOracle) (question_data : Question)
    (answer_data : AnswerData) : Except String GradingResult :=
  match question_data.question_type with
  | QType.mcq => grade_mcq question_data answer_data
  | QType.sql => Except.ok (grade_coding oracle question_data answer_data)
  | QType.python => Except.ok (grade_coding oracle question_data answer_data)
  | QType.javascript => Except.ok (grade_coding oracle question_data answer_data)
  | QType.descriptive => Except.ok grade_descriptive_pending


/-- The submission_dict of the submit endpoint applied to a row: answer
fields are replaced and the listed previous grading results are cleared
(execution_time_ms, auto_graded, manually_graded and the row id are not in
the dict and survive). -/
def submission_dict_base (session_id question_id : Nat) (qtype : QType)
    (answer : AnswerData) (qmarks : Nat) (sub : Submission) : Submission :=
  { sub with
    session_id := session_id
    question_id := question_id
    question_type := qtype
    code_answer := answer.code_answer
    mcq_selected_options := answer.mcq_selected_options
    text_answer := answer.text_answer
    max_marks := qmarks
    status := "pending"
    execution_error := none
    execution_output := none
    is_correct := none
    marks_obtained := 0
    test_cases_passed := 0
    test_cases_total := 0
    grader_feedback := none }


/-- The filtered grading-result update: only the columns whose keys are
present in the grading dict are overwritten. -/
def apply_grading_update (g : GradingResult) (sub : Submission) : Submission :=
  { sub with
    status := g.status.getD sub.status
    is_correct := match g.is_correct with
      | some v => v
      | none => sub.is_correct
    marks_obtained := g.marks_obtained.getD sub.marks_obtained
    max_marks := g.max_marks.getD sub.max_marks
    auto_graded := match g.auto_graded with
      | some v => some v
      | none => sub.auto_graded
    manually_graded := match g.manually_graded with
      | some v => some v
      | none => sub.manually_graded
    execution_output := match g.execution_output with
      | some v => v
      | none => sub.execution_output
    execution_error := match g.execution_error with
      | some v => v
      | none => sub.execution_error
    execution_time_ms := match g.execution_time_ms with
      | some v => some v
      | none => sub.execution_time_ms
    test_cases_passed := g.test_cases_passed.getD sub.test_cases_passed
    test_cases_total := g.test_cases_total.getD sub.test_cases_total
    grader_feedback := match g.grader_feedback with
      | some v => v
      | none => sub.grader_feedback }


/-- Embeds the POST /sessions/.../submit endpoint: validate the session,
fetch the question, upsert the submission row (update in place when a row
for (session, question) exists, else insert), grade, write the filtered
grading result onto the row, recalculate the session score and return the
re-fetched row. A grading raise surfaces as the endpoint's 500 error, after
the upsert already happened. -/
def submit_answer (oracle : SandboxOracle) (db : Db) (session_token : String) (now : Nat)
    (question_id : Nat) (answer : AnswerData) : Except String Submission × Db :=
  match validate_session db session_token now with
  | (SessValidation.invalid e, db0) => (Except.error e, db0)
  | (SessValidation.valid session, db0) =>
    match db0.questions.find? (fun q => q.id == question_id) with
    | none => (Except.error "Question not found", db0)
    | some question =>
      let existing := db0.submissions.filter
        (fun s => s.session_id == session.id && s.question_id == question_id)
      let upsert : Nat × Db :=
        match existing with
        | old :: _ =>
          (old.id, { db0 with submissions := db0.submissions.map (fun s =>
            if s.id == old.id then
              submission_dict_base session.id question_id question.question_type answer
                question.marks s
            else s) })
        | [] =>
          let fresh : Submission :=
            { id := db0.next_id
              session_id := session.id
              question_id := question_id
              question_type := question.question_type
              code_answer := answer.code_answer
              mcq_selected_options := answer.mcq_selected_options
              text_answer := answer.text_answer
              max_marks := question.marks
              status := "pending"
              execution_error := none
              execution_output := none
              is_correct := none
              marks_obtained := 0
              test_cases_passed := 0
              test_cases_total := 0
              grader_feedback := none
              execution_time_ms := none
              auto_graded := none
              manually_graded := none }
          (db0.next_id,
           { db0 with submissions := db0.submissions ++ [fresh], next_id := db0.next_id + 1 })
      let submission_id := upsert.1
      let db1 := upsert.2
      match grade_submission oracle question answer with
      | Except.error e => (Except.error e, db1)
      | Except.ok grading =>
        let db2 := { db1 with submissions := db1.submissions.map (fun s =>
          if s.id == submission_id then apply_grading_update grading s else s) }
        let db3 := (calculate_session_score db2 session.id).2
        match db3.submissions.find? (fun s => s.id == submission_id) with
        | some final => (Except.ok final, db3)
        | none => (Except.error "Submission not found", db3)


/-- Concrete Python coding question used in the C3 scenario: one visible
test case, 5 marks. -/
def qPy : Question :=
  { id := 42, question_type := QType.python, marks := 5, is_multiple_correct := false,
    mcq_options := [],
    test_cases := [{ input := "1", expected_output := "1", marks := none, is_hidden := false }] }


/-- Concrete sandbox outcome for the C3 scenario: a successful run that
prints the expected output in 7 ms. -/
def execOutC3 : ExecResult :=
  { success := true, output := "1", error := "", stdout := "1", stderr := "",
    runtime := 7, exit_code := 0 }


/-- Deterministic sandbox oracle for the C3 scenario: every run returns
execOutC3. -/
def oracleC3 : SandboxOracle :=
  { run := fun _ => execOutC3
    wrap := fun code _ => code
    sql := fun _ _ _ => Except.error "not used"
    sql_cmp := fun _ _ => false }


/-- Active, unexpired session for the C3 scenario. -/
def sessC3 : Session :=
  { id := 21, invitation_id := 20, test_id := 1, candidate_email := "c@example.com",
    candidate_name := "C", session_token := "session_c3", status := SStatus.active,
    is_active := true, is_completed := false, is_expired := false, can_resume := false,
    started_at := 0, expires_at := 2000, time_remaining_seconds := 1800,
    ip_address := none, user_agent := none, last_activity_at := none, ended_at := none,
    admin_comments := none, total_marks := 10, total_marks_obtained := 0,
    percentage_score := 0 }


/-- Store for the C3 scenario: one active session, one question, no
submissions yet. -/
def dbC3 : Db :=
  { invitations := [], sessions := [sessC3], tests := [testT], questions := [qPy],
    submissions := [], next_id := 30 }


/-- First submitted answer: non-empty code, so the test-case path runs and
writes execution_time_ms. -/
def ansC3a : AnswerData := { code_answer := some "def f(x): return x" }


/-- Second submitted answer: empty code, so grading takes the no-code early
return whose result dict omits execution_time_ms. -/
def ansC3b : AnswerData := { code_answer := some "" }


/-- The columns of a submission row that the upsert writes from the new
grading pass alone: everything except the row id, the never-auto-written
manual-grading provenance (manually_graded) and execution_time_ms. -/
def rescored_fields (s : Submission) :=
  (s.session_id, s.question_id, s.question_type, s.code_answer, s.mcq_selected_options,
   s.text_answer, s.max_marks, s.status, s.execution_error, s.execution_output,
   s.is_correct, s.marks_obtained, s.test_cases_passed, s.test_cases_total,
   s.grader_feedback, s.auto_graded)


/-- The C3 session after validate_session touches last_activity_at. -/
def sessC3v : Session := { sessC3 with last_activity_at := some 100 }


/-- The C3 store as validate_session returns it. -/
def db0C3 : Db := { dbC3 with sessions := [sessC3v] }


/-- The grading result of the first C3 answer, extracted from the grading
dispatcher so the witness can name it. -/
def gC3 : GradingResult :=
  match grade_submission oracleC3 qPy ansC3a with
  | Except.ok g => g
  | Except.error _ => {}


theorem roundHalfEven_cases (q : Rat) :
    roundHalfEven q = ⌊q⌋ ∨ roundHalfEven q = ⌊q⌋ + 1 := by
  unfold roundHalfEven
  split
  · exact Or.inl rfl
  · split
    · exact Or.inr rfl
    · split
      · exact Or.inl rfl
      · exact Or.inr rfl


theorem le_roundHalfEven (q : Rat) (z : Int) (h : (z : Rat) ≤ q) :
    z ≤ roundHalfEven q := by
  have hf : z ≤ ⌊q⌋ := Int.le_floor.mpr h
  rcases roundHalfEven_cases q with hc | hc <;> omega


theorem roundHalfEven_le (q : Rat) (z : Int) (h : q ≤ (z : Rat)) :
    roundHalfEven q ≤ z := by
  have hf : ⌊q⌋ ≤ z := by
    have := Int.floor_le_floor (α := Rat) h
    simpa using this
  rcases roundHalfEven_cases q with hc | hc
  · omega
  · by_cases hez : ⌊q⌋ = z
    · exfalso
      have hfr : ¬ (q - (⌊q⌋ : Rat) < 1 / 2) := by
        unfold roundHalfEven at hc
        by_contra hcon
        simp only [hcon, if_pos] at hc
        omega
      have hq : q ≤ (⌊q⌋ : Rat) := by
        rw [hez]; exact_mod_cast h
      have h1 : q - (⌊q⌋ : Rat) ≤ 0 := by linarith
      have h2 : q - (⌊q⌋ : Rat) < 1 / 2 := by linarith
      exact hfr h2
    · omega


theorem round2_nonneg (q : Rat) (h : 0 ≤ q) : 0 ≤ round2 q := by
  unfold round2
  have h0 : (0 : Int) ≤ roundHalfEven (q * 100) := by
    apply le_roundHalfEven
    push_cast
    linarith
  positivity


theorem round2_eq_down (q : Rat) (z : Int) (h1 : (z : Rat) ≤ q * 100)
    (h2 : q * 100 < (z : Rat) + 1 / 2) : round2 q = (z : Rat) / 100 := by
  have hfl : ⌊q * 100⌋ = z := by
    rw [Int.floor_eq_iff]
    refine ⟨h1, ?_⟩
    linarith
  unfold round2 roundHalfEven
  rw [hfl, if_pos (by linarith)]


theorem round2_eq_up (q : Rat) (z : Int) (h1 : (z : Rat) + 1 / 2 < q * 100)
    (h2 : q * 100 < (z : Rat) + 1) : round2 q = ((z : Rat) + 1) / 100 := by
  have hfl : ⌊q * 100⌋ = z := by
    rw [Int.floor_eq_iff]
    constructor
    · linarith
    · linarith
  unfold round2 roundHalfEven
  rw [hfl, if_neg (by linarith), if_pos (by linarith)]
  push_cast
  ring


theorem round2_le_int (q : Rat) (z : Int) (h : q ≤ (z : Rat)) : round2 q ≤ (z : Rat) := by
  unfold round2
  have h1 : roundHalfEven (q * 100) ≤ z * 100 := by
    apply roundHalfEven_le
    push_cast
    linarith
  have h2 : (roundHalfEven (q * 100) : Rat) ≤ ((z * 100 : Int) : Rat) := by exact_mod_cast h1
  push_cast at h2
  linarith


/-- Helper: full evaluation of grade_mcq in multiple-correct mode with at
least one correct option, with the partial-credit expression written in the
(marks / total) * (correct - incorrect) shape. -/
theorem grade_mcq_multiple_spec (q : Question) (ans : AnswerData)
    (hm : q.is_multiple_correct = true) (hc : (mcqCorrectSet q).card ≠ 0) :
    grade_mcq q ans = Except.ok {
      grading_type := some "auto"
      is_correct := some (some (decide ((ans.mcq_selected_options.getD []).toFinset = mcqCorrectSet q)))
      marks_obtained := some (round2 (max 0 (((q.marks : Rat) / ((mcqCorrectSet q).card : Rat)) *
        ((((ans.mcq_selected_options.getD []).toFinset ∩ mcqCorrectSet q).card : Rat) -
         (((ans.mcq_selected_options.getD []).toFinset \ mcqCorrectSet q).card : Rat)))))
      max_marks := some q.marks
      auto_graded := some true
      status := some "graded" } := by
  unfold grade_mcq
  simp only [hm, hc, if_true, if_false, ite_false, ite_true]
  simp only [show ∀ a b c : Rat, a * c - b * c = c * (a - b) from fun a b c => by ring]


/-- C5 counterexample: for a 1-mark multiple-correct MCQ with 3 correct
options, selecting 2 correct and 1 incorrect yields marks_obtained 0.33
(Python round(x, 2) is applied), which differs from the claimed exact value
max(0, (1/3) * (2 - 1)) = 1/3. -/
theorem C5_counterexample :
    (∃ r, grade_mcq mcqQ1 { mcq_selected_options := some [1, 2, 4] } = Except.ok r ∧
      r.marks_obtained = some (33/100)) ∧
    (33/100 : Rat) ≠ max 0 (((1 : Rat) / 3) * (2 - 1)) := by
  constructor
  · refine ⟨_, grade_mcq_multiple_spec mcqQ1 _ rfl (by decide), ?_⟩
    show some (round2 _) = some (33/100)
    have h1 : (([1, 2, 4] : List Nat).toFinset ∩ mcqCorrectSet mcqQ1).card = 2 := by decide
    have h2 : (([1, 2, 4] : List Nat).toFinset \ mcqCorrectSet mcqQ1).card = 1 := by decide
    have h3 : (mcqCorrectSet mcqQ1).card = 3 := by decide
    have h4 : round2 ((1 : Rat)/3) = 33/100 := by
      rw [round2_eq_down ((1 : Rat)/3) 33 (by norm_num) (by norm_num)]
      norm_num
    have hmax : max (0 : Rat) ((1 : Rat)/3) = 1/3 := max_eq_right (by norm_num)
    have hm1 : mcqQ1.marks = 1 := rfl
    simp only [Option.getD, hm1, h1, h2, h3]
    norm_num [hmax, h4]
  · have hmax : max (0 : Rat) (((1 : Rat) / 3) * (2 - 1)) = 1/3 := by
      rw [show ((1 : Rat) / 3) * (2 - 1) = 1/3 from by norm_num]
      exact max_eq_right (by norm_num)
    rw [hmax]
    norm_num


/-- C5 (amended): in multiple-correct mode with at least one correct option,
_grade_mcq awards round2 of max(0, (marks / total_correct) *
(correctly_selected - incorrectly_selected)) - the exact partial-credit
expression rounded to two decimals - which stays between 0 and the question's
max marks, and is_correct holds exactly when the selected id set equals the
correct id set. -/
theorem C5_mcq_partial_credit (q : Question) (ans : AnswerData)
    (hm : q.is_multiple_correct = true) (hc : 1 ≤ (mcqCorrectSet q).card) :
    ∃ r, grade_mcq q ans = Except.ok r ∧
      r.marks_obtained = some (round2 (max 0 (((q.marks : Rat) / ((mcqCorrectSet q).card : Rat)) *
        ((((ans.mcq_selected_options.getD []).toFinset ∩ mcqCorrectSet q).card : Rat) -
         (((ans.mcq_selected_options.getD []).toFinset \ mcqCorrectSet q).card : Rat))))) ∧
      (∀ m, r.marks_obtained = some m → 0 ≤ m ∧ m ≤ (q.marks : Rat)) ∧
      r.is_correct = some (some (decide ((ans.mcq_selected_options.getD []).toFinset = mcqCorrectSet q))) := by
  have hc0 : (mcqCorrectSet q).card ≠ 0 := by omega
  refine ⟨_, grade_mcq_multiple_spec q ans hm hc0, rfl, ?_, rfl⟩
  intro m hmk
  have hmk' := Option.some.inj hmk
  subst hmk'
  set S := (ans.mcq_selected_options.getD []).toFinset with hS
  set C := mcqCorrectSet q with hC
  set t : Rat := ((mcqCorrectSet q).card : Rat) with ht
  have htpos : 0 < t := by
    rw [ht]
    exact_mod_cast Nat.pos_of_ne_zero hc0
  have hval : max (0 : Rat) (((q.marks : Rat) / t) * (((S ∩ C).card : Rat) - ((S \ C).card : Rat))) ≤
      (q.marks : Rat) := by
    apply max_le
    · positivity
    · have hcs : ((S ∩ C).card : Rat) ≤ t := by
        rw [ht, hC]
        exact_mod_cast Finset.card_le_card (Finset.inter_subset_right)
      have hsub : (((S ∩ C).card : Rat) - ((S \ C).card : Rat)) ≤ t := by
        have : (0 : Rat) ≤ ((S \ C).card : Rat) := by positivity
        linarith
      have hdiv : (0 : Rat) ≤ (q.marks : Rat) / t := by positivity
      calc ((q.marks : Rat) / t) * (((S ∩ C).card : Rat) - ((S \ C).card : Rat))
          ≤ ((q.marks : Rat) / t) * t := by
            apply mul_le_mul_of_nonneg_left hsub hdiv
        _ = (q.marks : Rat) := by field_simp
  constructor
  · exact round2_nonneg _ (le_max_left _ _)
  · have := round2_le_int (max (0 : Rat) (((q.marks : Rat) / t) *
      (((S ∩ C).card : Rat) - ((S \ C).card : Rat)))) (q.marks : Int) (by exact_mod_cast hval)
    exact_mod_cast this


/-- C5 witness: the claim's own example. For the 9-mark MCQ with 3 correct
options, selecting 2 correct and 1 incorrect yields exactly 3 marks. -/
theorem C5_mcq_partial_credit_witness :
    ∃ r, grade_mcq mcqQ9 { mcq_selected_options := some [1, 2, 4] } = Except.ok r ∧
      r.marks_obtained = some 3 := by
  obtain ⟨r, hr, hmk, _, _⟩ :=
    C5_mcq_partial_credit mcqQ9 { mcq_selected_options := some [1, 2, 4] } rfl (by decide)
  refine ⟨r, hr, ?_⟩
  rw [hmk]
  have h1 : (([1, 2, 4] : List Nat).toFinset ∩ mcqCorrectSet mcqQ9).card = 2 := by decide
  have h2 : (([1, 2, 4] : List Nat).toFinset \ mcqCorrectSet mcqQ9).card = 1 := by decide
  have h3 : (mcqCorrectSet mcqQ9).card = 3 := by decide
  have hm9 : mcqQ9.marks = 9 := rfl
  have hmax : max (0 : Rat) (3 : Rat) = 3 := max_eq_right (by norm_num)
  have h4 : round2 (3 : Rat) = 3 := by
    rw [round2_eq_down (3 : Rat) 300 (by norm_num) (by norm_num)]
    norm_num
  simp only [Option.getD, hm9, h1, h2, h3]
  norm_num [hmax, h4]


/-- C9: in multiple-correct mode, when no option is flagged correct,
_grade_mcq divides by zero and raises instead of returning a grading result;
with at least one correct option it always returns a result. -/
theorem C9_mcq_zero_correct_raises (q : Question) (ans : AnswerData)
    (hm : q.is_multiple_correct = true) :
    ((∀ o ∈ q.mcq_options, o.is_correct = false) →
      grade_mcq q ans = Except.error "ZeroDivisionError: division by zero") ∧
    ((∃ o ∈ q.mcq_options, o.is_correct = true) →
      ∃ r, grade_mcq q ans = Except.ok r) := by
  constructor
  · intro hnone
    have hfil : q.mcq_options.filter (fun o => o.is_correct) = [] := by
      rw [List.filter_eq_nil_iff]
      intro o ho
      simp [hnone o ho]
    have hcard : (mcqCorrectSet q).card = 0 := by
      rw [mcqCorrectSet, hfil]
      rfl
    unfold grade_mcq
    simp [hm, hcard]
  · rintro ⟨o, ho, hoc⟩
    have hmem : o.id ∈ mcqCorrectSet q := by
      rw [mcqCorrectSet]
      rw [List.mem_toFinset, List.mem_map]
      exact ⟨o, by rw [List.mem_filter]; exact ⟨ho, by rw [hoc]⟩, rfl⟩
    exact ⟨_, grade_mcq_multiple_spec q ans hm (Finset.card_ne_zero_of_mem hmem)⟩


/-- C9 witness: concrete instances of both halves. -/
theorem C9_mcq_zero_correct_raises_witness :
    grade_mcq mcqQnone { mcq_selected_options := some [1] } =
      Except.error "ZeroDivisionError: division by zero" ∧
    (∃ r, grade_mcq mcqQ1 { mcq_selected_options := some [1] } = Except.ok r) := by
  constructor
  · exact (C9_mcq_zero_correct_raises mcqQnone _ rfl).1 (by decide)
  · exact (C9_mcq_zero_correct_raises mcqQ1 _ rfl).2 ⟨⟨1, true⟩, by decide, rfl⟩


/-- Helper: validate_session on a token whose row is already expired (with
flags set) again returns the expiry failure and leaves every row's status
flags unchanged. -/
theorem validate_session_expired_again (db2 : Db) (tok : String) (now2 : Nat) (s2 : Session)
    (hfind : db2.sessions.find? (fun r => r.session_token == tok) = some s2)
    (hnc : s2.is_completed = false)
    (hexp : s2.expires_at < now2)
    (hall : ∀ r ∈ db2.sessions, r.id = s2.id →
      r.status = SStatus.expired ∧ r.is_active = false ∧ r.is_expired = true) :
    (validate_session db2 tok now2).1 = SessValidation.invalid "Test session expired" ∧
    (validate_session db2 tok now2).2.sessions.map session_flags =
      db2.sessions.map session_flags := by
  have heq : validate_session db2 tok now2 =
      (SessValidation.invalid "Test session expired",
       update_session db2 s2.id (expire_session_row now2)) := by
    unfold validate_session
    rw [hfind]
    simp [hnc, hexp]
  rw [heq]
  refine ⟨rfl, ?_⟩
  simp only [update_session, List.map_map]
  apply List.map_congr_left
  intro r hr
  by_cases hcase : r.id == s2.id
  · obtain ⟨h1, h2, h3⟩ := hall r hr (by simpa using hcase)
    simp only [Function.comp, if_pos hcase, expire_session_row, session_flags]
    rw [h1, h2, h3]
  · simp only [Function.comp, if_neg hcase]


/-- Helper: find? by session token commutes with a token-preserving
single-row update. -/
theorem find?_update_session (db : Db) (i : Nat) (g : Session → Session) (tok : String)
    (hg : ∀ r, (g r).session_token = r.session_token) (s : Session)
    (h : db.sessions.find? (fun r => r.session_token == tok) = some s) :
    (update_session db i g).sessions.find? (fun r => r.session_token == tok) =
      some (if s.id == i then g s else s) := by
  unfold update_session
  show (db.sessions.map (fun r => if r.id == i then g r else r)).find? _ = _
  rw [List.find?_map]
  have hp : ((fun r => r.session_token == tok) ∘
      (fun r : Session => if r.id == i then g r else r)) =
      (fun r => r.session_token == tok) := by
    funext r
    by_cases hc : r.id = i
    · simp [hc, hg]
    · simp [hc]
  rw [hp, h]
  rfl


/-- C2: for a session past its expires_at with is_completed = false, every
validate_session call fails with the expiry error; the first call writes
status = expired, is_active = false, is_expired = true onto the row, and any
later call past expiry fails again without changing any row's status flags
(the expired transition is observable exactly once). -/
theorem C2_lazy_expiry (db : Db) (tok : String) (now : Nat) (s : Session)
    (hfind : db.sessions.find? (fun r => r.session_token == tok) = some s)
    (hnc : s.is_completed = false)
    (hexp : s.expires_at < now) :
    (validate_session db tok now).1 = SessValidation.invalid "Test session expired" ∧
    (∀ r ∈ (validate_session db tok now).2.sessions, r.id = s.id →
      r.status = SStatus.expired ∧ r.is_active = false ∧ r.is_expired = true) ∧
    (∀ now2, s.expires_at < now2 →
      (validate_session (validate_session db tok now).2 tok now2).1 =
        SessValidation.invalid "Test session expired" ∧
      (validate_session (validate_session db tok now).2 tok now2).2.sessions.map session_flags =
        (validate_session db tok now).2.sessions.map session_flags) := by
  have heq : validate_session db tok now =
      (SessValidation.invalid "Test session expired",
       update_session db s.id (expire_session_row now)) := by
    unfold validate_session
    rw [hfind]
    simp [hnc, hexp]
  have hflags : ∀ r ∈ (validate_session db tok now).2.sessions, r.id = s.id →
      r.status = SStatus.expired ∧ r.is_active = false ∧ r.is_expired = true := by
    rw [heq]
    intro r hr hid
    simp only [update_session, List.mem_map] at hr
    obtain ⟨r0, _, hreq⟩ := hr
    by_cases hcase : r0.id == s.id
    · rw [if_pos hcase] at hreq
      subst hreq
      exact ⟨rfl, rfl, rfl⟩
    · rw [if_neg hcase] at hreq
      subst hreq
      exact absurd hid (by simpa using hcase)
  refine ⟨by rw [heq], hflags, ?_⟩
  intro now2 hexp2
  have hfind2 : (validate_session db tok now).2.sessions.find?
      (fun r => r.session_token == tok) = some (expire_session_row now s) := by
    rw [heq]
    have := find?_update_session db s.id (expire_session_row now) tok
      (fun r => rfl) s hfind
    simpa using this
  exact validate_session_expired_again _ tok now2 (expire_session_row now s) hfind2
    hnc hexp2 (fun r hr hid => hflags r hr hid)


/-- C2 witness: concrete expired session; the first call fails and expires
the row, the second call fails and leaves the flags alone. -/
theorem C2_lazy_expiry_witness :
    (validate_session dbC2 "session_c2" 101).1 =
      SessValidation.invalid "Test session expired" ∧
    ((validate_session dbC2 "session_c2" 101).2.sessions.map session_flags =
      [(SStatus.expired, false, true, false)]) ∧
    (validate_session (validate_session dbC2 "session_c2" 101).2 "session_c2" 102).1 =
      SessValidation.invalid "Test session expired" ∧
    (validate_session (validate_session dbC2 "session_c2" 101).2 "session_c2" 102).2.sessions.map
        session_flags = [(SStatus.expired, false, true, false)] := by
  obtain ⟨h1, _, h3⟩ := C2_lazy_expiry dbC2 "session_c2" 101 sessC2 rfl rfl (by decide)
  obtain ⟨h4, h5⟩ := h3 102 (by decide)
  refine ⟨h1, rfl, h4, ?_⟩
  rw [h5]
  rfl


/-- C4: the code violates the claim. A session in the terminal state
terminated (not completed, not past expiry) is transitioned to completed by
the complete-session endpoint: the idempotence guard checks only
is_completed and status in (completed, expired), and validate_session never
checks status, so the manager's unconditional update overwrites the
terminated status. -/
theorem C4_terminated_session_completed :
    sessC4.status = SStatus.terminated ∧ sessC4.is_completed = false ∧
    sessC4.expires_at = 1000 ∧
    (∃ s, (complete_session_endpoint dbC4 "session_c4" 100).1 = Except.ok (some s) ∧
      s.status = SStatus.completed ∧ s.is_completed = true) ∧
    ((complete_session_endpoint dbC4 "session_c4" 100).2.sessions.map (fun s => s.status)) =
      [SStatus.completed] := by
  refine ⟨rfl, rfl, rfl, ⟨_, rfl, rfl, rfl⟩, rfl⟩


/-! Claim C1: at most one non-terminated session per invitation; resumption. -/

/-- Helper: any start_session call preserves the at-most-one-non-terminated-
session-per-invitation bound: it inserts only when the defensive lookup found
none, and the inserted session belongs to that invitation. -/
theorem start_session_preserves (db : Db) (tok : String) (now : Nat)
    (ip ua : Option String)
    (h : ∀ j : Nat, (non_terminated_sessions db j).length ≤ 1) :
    ∀ j, (non_terminated_sessions (start_session db tok now ip ua).2 j).length ≤ 1 := by
  intro j
  unfold start_session
  cases hv : validate_invitation db tok now with
  | invalid e => simp only []; exact h j
  | valid_resuming i s => simp only []; exact h j
  | valid inv =>
    simp only []
    cases hex : non_terminated_sessions db inv.id with
    | cons a t =>
      simp only []
      split
      · exact h j
      · exact h j
    | nil =>
      cases ht : db.tests.find? (fun t => t.id == inv.test_id) with
      | none => simp only []; exact h j
      | some test =>
        simp only [update_invitation, non_terminated_sessions, List.filter_append]
        by_cases hj : inv.id = j
        · subst hj
          have h0 : db.sessions.filter
              (fun s => s.invitation_id == inv.id && !(s.status == SStatus.terminated)) = [] := hex
          rw [h0]
          simp
        · have h1 : (non_terminated_sessions db j).length ≤ 1 := h j
          simp only [non_terminated_sessions] at h1
          simp [hj, h1]


/-- Helper: when the token's invitation already has exactly one non-terminated
session, start_session never writes (no insert, no update), and it returns
that session as resumed when it is not completed, provided the invitation is
marked used, or is unused but passes validation (unexpired and published). -/
theorem start_session_no_insert_resume (db : Db) (tok : String) (now : Nat)
    (ip ua : Option String) (inv : Invitation) (s : Session)
    (hinv : db.invitations.find? (fun i => i.invitation_token == tok) = some inv)
    (hs : non_terminated_sessions db inv.id = [s]) :
    (start_session db tok now ip ua).2 = db ∧
    (s.is_completed = false →
      (inv.is_used = true ∨ (¬ inv.expires_at < now ∧
        ∃ t, db.tests.find? (fun x => x.id == inv.test_id) = some t ∧ t.is_published = true)) →
      (start_session db tok now ip ua).1 = StartResult.success s true) := by
  unfold start_session validate_invitation
  rw [hinv]
  simp only []
  rw [hs]
  by_cases hu : inv.is_used
  · simp only [hu, if_true, ite_true]
    by_cases hc : s.is_completed
    · simp [hc]
    · simp [hc]
  · simp only [hu, if_false, ite_false, Bool.false_eq_true]
    by_cases he : inv.expires_at < now
    · simp [he]
    · simp only [he, if_false, ite_false]
      cases ht : db.tests.find? (fun x => x.id == inv.test_id) with
      | none => simp
      | some t =>
        by_cases hp : t.is_published
        · simp only [hp, Bool.not_true, if_false, ite_false, ite_true, hs]
          by_cases hc : s.is_completed
          · simp [hc, ht, hs]
          · simp [hc, ht, hs]
        · simp [hp]


/-- C1 (amended): when a non-terminated session already exists for the
token's invitation, start_session inserts nothing (the store is unchanged)
and returns that session as resumed when it is not completed, provided the
invitation is marked used or still passes validation; an unused invitation
that fails validation (expired or unpublished) makes the call fail instead
of resuming. In all cases any start_session call preserves the at-most-one
non-terminated session per invitation invariant. -/
theorem C1_at_most_one_session (db : Db) (tok : String) (now : Nat) (ip ua : Option String) :
    (∀ inv s, db.invitations.find? (fun i => i.invitation_token == tok) = some inv →
      non_terminated_sessions db inv.id = [s] →
      (start_session db tok now ip ua).2 = db ∧
      (s.is_completed = false →
        (inv.is_used = true ∨ (¬ inv.expires_at < now ∧
          ∃ t, db.tests.find? (fun x => x.id == inv.test_id) = some t ∧ t.is_published = true)) →
        (start_session db tok now ip ua).1 = StartResult.success s true)) ∧
    ((∀ j, (non_terminated_sessions db j).length ≤ 1) →
      ∀ j, (non_terminated_sessions (start_session db tok now ip ua).2 j).length ≤ 1) :=
  ⟨fun inv s hinv hs => start_session_no_insert_resume db tok now ip ua inv s hinv hs,
   fun h => start_session_preserves db tok now ip ua h⟩


/-- C1 counterexample: a non-terminated, non-completed session exists for the
invitation, the invitation's is_used flag is false and its expiry has passed;
start_session then fails with the invitation-expired error instead of
returning the session as resumed (no row is inserted, though). -/
theorem C1_counterexample :
    non_terminated_sessions dbC1 invC1.id = [sessC1] ∧
    sessC1.is_completed = false ∧ invC1.is_used = false ∧
    (start_session dbC1 "invite_c1" 100 none none).1 =
      StartResult.failure "This invitation has expired." ∧
    (start_session dbC1 "invite_c1" 100 none none).2 = dbC1 :=
  ⟨rfl, rfl, rfl, rfl, rfl⟩


/-- C1 witness: with the invitation marked used, the existing session is
returned as resumed, the store is untouched, and the invariant holds after
the call. -/
theorem C1_at_most_one_session_witness :
    (start_session dbC1w "invite_c1w" 100 none none).1 = StartResult.success sessC1 true ∧
    (start_session dbC1w "invite_c1w" 100 none none).2 = dbC1w ∧
    ∀ j, (non_terminated_sessions (start_session dbC1w "invite_c1w" 100 none none).2 j).length ≤ 1 := by
  obtain ⟨h1, h2⟩ := C1_at_most_one_session dbC1w "invite_c1w" 100 none none
  obtain ⟨hdb, hres⟩ := h1 invC1w sessC1 rfl rfl
  refine ⟨hres rfl (Or.inl rfl), hdb, h2 ?_⟩
  intro j
  exact List.length_filter_le _ _


/-- C10 counterexample: in the remote path a program that exits 0 and prints
the expected stdout but also writes (whitespace) to stderr is still reported
as a successful execution, because the combined stderr is stripped before
the emptiness test; the claim's iff (success exactly when the combined
stderr stream is empty) fails here. -/
theorem C10_counterexample :
    (process_piston_response pistonWs).success = true ∧
    pistonWs.compile_stderr ++ pistonWs.run.stderr ≠ "" := by
  constructor
  · decide
  · decide


/-- C10 (amended): the remote path reports success iff the run exit code is
0 and the whitespace-stripped concatenation of compile stderr and run stderr
is empty (so whitespace-only stderr still counts as success); the local
fallback reports success iff the exit code is 0 and the raw stderr is
exactly the empty string. -/
theorem C10_success_flag (r : PistonResponse) (c : Int) (hc : r.run.code = some c)
    (ec : Int) (so se : String) (rt : Nat) :
    ((process_piston_response r).success = true ↔
      (c = 0 ∧ pyStrip (r.compile_stderr ++ r.run.stderr) = "")) ∧
    ((execute_code_local_result ec so se rt).success = true ↔ (ec = 0 ∧ se = "")) := by
  constructor
  · unfold process_piston_response
    rw [hc]
    simp [Bool.and_eq_true]
  · unfold execute_code_local_result
    simp [Bool.and_eq_true]


/-- C10 witness: the theorem applied to the whitespace-stderr response (its
hypothesis discharged with the concrete exit code), and the local path on a
whitespace stderr, which fails. -/
theorem C10_success_flag_witness :
    (process_piston_response pistonWs).success = true ∧
    (execute_code_local_result 0 "42" " " 1).success = false := by
  obtain ⟨h1, h2⟩ := C10_success_flag pistonWs 0 rfl 0 "42" " " 1
  constructor
  · exact h1.mpr ⟨rfl, by decide⟩
  · cases hsf : (execute_code_local_result 0 "42" " " 1).success
    · rfl
    · obtain ⟨_, habs⟩ := h2.mp hsf
      exact absurd habs (by decide)


/-- C7: _compare_sql_results judges two row-sets equal exactly when they
have the same number of rows and the sorted collections of normalized rows
(each row a sorted list of (column, lowercased-stringified-value) pairs)
coincide; concretely, the same rows in different order with 5-versus-"5"
type differences compare correct, while a different row count or different
column names compare incorrect. -/
theorem C7_sql_rowset_comparison :
    (∀ actual expected : List SqlRow,
      compare_sql_results actual expected = true ↔
        (actual.length = expected.length ∧
         sortBy rowLe (actual.map normalize_row) =
           sortBy rowLe (expected.map normalize_row))) ∧
    compare_sql_results rowsA rowsB = true ∧
    compare_sql_results rowsA rowsC = false ∧
    compare_sql_results rowsA rowsD = false := by
  refine ⟨?_, by decide, by decide, by decide⟩
  intro actual expected
  unfold compare_sql_results
  by_cases heq : actual = expected
  · subst heq
    simp
  · have hbeq : (actual == expected) = false := by
      simpa using heq
    rw [hbeq]
    simp only [Bool.false_eq_true, if_false, ite_false]
    by_cases hlen : actual.length = expected.length
    · simp [hlen]
    · simp [hlen]


/-- C8: when the sandbox reports failure or raises, _grade_sql returns a
zero-mark, not-correct grading result whose execution_output and
execution_error both carry the error text (the raw error on reported
failure; the raw exception text behind the "SQL Execution Error: " banner on
a raise), instead of propagating a fault. -/
theorem C8_sql_failure_surfaced (cmp : Option String → Option String → Bool)
    (expected : Option String) (tcs : List TestCase) (mm : Nat) :
    (∀ res : SqlExecOutcome, res.success = false →
      (grade_sql (Except.ok res) cmp expected tcs mm).marks_obtained = some 0 ∧
      (grade_sql (Except.ok res) cmp expected tcs mm).is_correct = some (some false) ∧
      (grade_sql (Except.ok res) cmp expected tcs mm).execution_output =
        some (some (res.error.getD "Execution failed")) ∧
      (grade_sql (Except.ok res) cmp expected tcs mm).execution_error =
        (grade_sql (Except.ok res) cmp expected tcs mm).execution_output) ∧
    (∀ e : String,
      (grade_sql (Except.error e) cmp expected tcs mm).marks_obtained = some 0 ∧
      (grade_sql (Except.error e) cmp expected tcs mm).is_correct = some (some false) ∧
      (grade_sql (Except.error e) cmp expected tcs mm).execution_output =
        some (some ("SQL Execution Error: " ++ e)) ∧
      (grade_sql (Except.error e) cmp expected tcs mm).execution_error =
        (grade_sql (Except.error e) cmp expected tcs mm).execution_output) := by
  constructor
  · intro res hsf
    unfold grade_sql
    simp [hsf]
  · intro e
    unfold grade_sql
    simp


/-- C8 witness: a reported failure with an error message, and a raised
exception, both at a 5-mark question. -/
theorem C8_sql_failure_surfaced_witness :
    (grade_sql (Except.ok sqlFailOutcome) (fun _ _ => false) none [] 5).execution_output =
      some (some "no such table: employees") ∧
    (grade_sql (Except.ok sqlFailOutcome) (fun _ _ => false) none [] 5).marks_obtained = some 0 ∧
    (grade_sql (Except.error "timed out") (fun _ _ => false) none [] 5).execution_error =
      some (some "SQL Execution Error: timed out") := by
  obtain ⟨h1, h2⟩ := C8_sql_failure_surfaced (fun _ _ => false) none [] 5
  obtain ⟨hm, _, ho, _⟩ := h1 sqlFailOutcome rfl
  obtain ⟨_, _, ho2, he2⟩ := h2 "timed out"
  exact ⟨ho, hm, by rw [he2, ho2]; rfl⟩


/-- Helper: calculate_session_score returns and persists exactly the claim's
three aggregates, with the two rational ones rounded to two decimals. -/
theorem calculate_session_score_spec (db : Db) (sid : Nat) :
    (calculate_session_score db sid).1 =
      { total_marks_obtained := round2 (spec_graded_sum db sid)
        total_marks := spec_total_marks db sid
        percentage_score := round2 (spec_percentage db sid)
        graded_count := ((session_submissions db sid).filter (fun s => s.status == "graded")).length
        total_questions := (session_submissions db sid).length } ∧
    (calculate_session_score db sid).2 =
      update_session db sid (fun s =>
        { s with total_marks_obtained := round2 (spec_graded_sum db sid)
                 total_marks := spec_total_marks db sid
                 percentage_score := round2 (spec_percentage db sid) }) := by
  unfold calculate_session_score spec_percentage spec_total_marks spec_graded_sum
      session_submissions
  cases hfs : db.sessions.find? (fun s => s.id == sid) with
  | none => simp [hfs]
  | some srow =>
    cases hft : db.tests.find? (fun t => t.id == srow.test_id) with
    | none => simp [hfs, hft]
    | some t =>
      by_cases h0 : t.total_marks = 0
      · simp [hfs, hft, h0]
      · simp [hfs, hft, h0]


/-- C6 (amended): calculate_session_score computes total_marks_obtained as
the sum over exactly the graded submissions, total_marks from the parent
test with the fallback to summed max_marks only when missing or zero,
percentage as obtained/total x 100 guarded to zero on a zero total, and
persists these values onto the session row - the obtained total and the
percentage being stored rounded to two decimals. -/
theorem C6_session_score (db : Db) (sid : Nat) :
    (calculate_session_score db sid).1.total_marks_obtained = round2 (spec_graded_sum db sid) ∧
    (calculate_session_score db sid).1.total_marks = spec_total_marks db sid ∧
    (calculate_session_score db sid).1.percentage_score = round2 (spec_percentage db sid) ∧
    (∀ r ∈ (calculate_session_score db sid).2.sessions, r.id = sid →
      r.total_marks_obtained = round2 (spec_graded_sum db sid) ∧
      r.total_marks = spec_total_marks db sid ∧
      r.percentage_score = round2 (spec_percentage db sid)) := by
  obtain ⟨h1, h2⟩ := calculate_session_score_spec db sid
  refine ⟨by rw [h1], by rw [h1], by rw [h1], ?_⟩
  rw [h2]
  intro r hr hid
  simp only [update_session, List.mem_map] at hr
  obtain ⟨r0, _, hreq⟩ := hr
  by_cases hcase : r0.id == sid
  · rw [if_pos hcase] at hreq
    subst hreq
    exact ⟨rfl, rfl, rfl⟩
  · rw [if_neg hcase] at hreq
    subst hreq
    exact absurd hid (by simpa using hcase)


/-- C6 counterexample: with 1 mark obtained out of a 3-mark total the claim's
exact percentage is 100/3, but the value computed (and persisted) is
round(100/3, 2) = 33.33, so the persisted percentage is not obtained/total
x 100. -/
theorem C6_counterexample :
    (calculate_session_score dbC6 11).1.percentage_score = 3333/100 ∧
    spec_graded_sum dbC6 11 = 1 ∧ spec_total_marks dbC6 11 = 3 ∧
    (3333/100 : Rat) ≠ (1 : Rat) / 3 * 100 := by
  have hsum : spec_graded_sum dbC6 11 = 1 := by
    simp [spec_graded_sum, session_submissions, dbC6, subC6]
  have htot : spec_total_marks dbC6 11 = 3 := by decide
  have hpct : spec_percentage dbC6 11 = 100/3 := by
    rw [spec_percentage, htot, hsum]
    norm_num
  have hr2 : round2 ((100 : Rat)/3) = 3333/100 := by
    rw [round2_eq_down ((100 : Rat)/3) 3333 (by norm_num) (by norm_num)]
    norm_num
  refine ⟨?_, hsum, htot, by norm_num⟩
  rw [(calculate_session_score_spec dbC6 11).1]
  show round2 (spec_percentage dbC6 11) = 3333/100
  rw [hpct, hr2]


/-- C6 witness: the theorem evaluated on the 1-of-3 store; the test total is
used, the obtained sum covers the graded submission, and the rounded
percentage is persisted onto the session row. -/
theorem C6_session_score_witness :
    (calculate_session_score dbC6 11).1.total_marks = 3 ∧
    (calculate_session_score dbC6 11).1.total_marks_obtained = 1 ∧
    (calculate_session_score dbC6 11).2.sessions.map (fun r => r.percentage_score) =
      [3333/100] := by
  obtain ⟨h1, h2, h3, h4⟩ := C6_session_score dbC6 11
  have hsum : spec_graded_sum dbC6 11 = 1 := by
    simp [spec_graded_sum, session_submissions, dbC6, subC6]
  have htot : spec_total_marks dbC6 11 = 3 := by decide
  have hpct : spec_percentage dbC6 11 = 100/3 := by
    rw [spec_percentage, htot, hsum]
    norm_num
  have hr2 : round2 ((100 : Rat)/3) = 3333/100 := by
    rw [round2_eq_down ((100 : Rat)/3) 3333 (by norm_num) (by norm_num)]
    norm_num
  have hone : round2 (1 : Rat) = 1 := by
    rw [round2_eq_down (1 : Rat) 100 (by norm_num) (by norm_num)]
    norm_num
  refine ⟨by rw [h2, htot], by rw [h1, hsum, hone], ?_⟩
  rw [(calculate_session_score_spec dbC6 11).2]
  simp only [update_session, dbC6]
  show [if sessC6.id == 11 then _ else sessC6].map _ = _
  simp only [List.map]
  rw [show (sessC6.id == 11) = true from rfl]
  simp only [if_true, ite_true]
  show [round2 (spec_percentage dbC6 11)] = [3333/100]
  rw [hpct, hr2]


theorem grade_coding_auto_graded (oracle : SandboxOracle) (q : Question) (ans : AnswerData) :
    (grade_coding oracle q ans).auto_graded.isSome := by
  unfold grade_coding grade_sql grade_general_coding
  simp only []
  repeat' split
  all_goals rfl


theorem grade_mcq_auto_graded (q : Question) (ans : AnswerData) (g : GradingResult)
    (h : grade_mcq q ans = Except.ok g) : g.auto_graded.isSome := by
  unfold grade_mcq at h
  simp only [] at h
  by_cases hm : q.is_multiple_correct = true
  · rw [if_pos hm] at h
    by_cases hc : (mcqCorrectSet q).card = 0
    · rw [if_pos hc] at h
      exact absurd h (by simp)
    · rw [if_neg hc] at h
      obtain rfl : _ = g := Except.ok.inj h
      rfl
  · rw [if_neg hm] at h
    obtain rfl : _ = g := Except.ok.inj h
    rfl


theorem grade_submission_auto_graded (oracle : SandboxOracle) (q : Question)
    (ans : AnswerData) (g : GradingResult)
    (h : grade_submission oracle q ans = Except.ok g) : g.auto_graded.isSome := by
  unfold grade_submission at h
  cases hq : q.question_type with
  | mcq =>
    rw [hq] at h
    exact grade_mcq_auto_graded q ans g h
  | sql =>
    rw [hq] at h
    obtain rfl : _ = g := Except.ok.inj h
    exact grade_coding_auto_graded oracle q ans
  | python =>
    rw [hq] at h
    obtain rfl : _ = g := Except.ok.inj h
    exact grade_coding_auto_graded oracle q ans
  | javascript =>
    rw [hq] at h
    obtain rfl : _ = g := Except.ok.inj h
    exact grade_coding_auto_graded oracle q ans
  | descriptive =>
    rw [hq] at h
    obtain rfl : _ = g := Except.ok.inj h
    rfl


theorem find?_id_of_filter_uniq (l : List Submission) (old : Submission)
    (huniq : ∀ r ∈ l, r.id = old.id → r = old) (hmem : old ∈ l) :
    l.find? (fun s => s.id == old.id) = some old := by
  induction l with
  | nil => cases hmem
  | cons a t ih =>
    by_cases ha : a.id = old.id
    · have haold : a = old := huniq a (List.mem_cons_self a t) ha
      subst haold
      simp [List.find?_cons_of_pos]
    · rw [List.find?_cons_of_neg _ (by simpa using ha)]
      rcases List.mem_cons.mp hmem with h1 | h1
      · subst h1
        exact absurd rfl ha
      · exact ih (fun r hr hid => huniq r (List.mem_cons_of_mem a hr) hid) h1


theorem calculate_session_score_submissions (db : Db) (sid : Nat) :
    ((calculate_session_score db sid).2).submissions = db.submissions := by
  rw [(calculate_session_score_spec db sid).2]
  rfl


theorem upsert_fields_from_answer (g : GradingResult) (hag : g.auto_graded.isSome)
    (sid qid : Nat) (qt : QType) (ans : AnswerData) (qm : Nat) (sub sub' : Submission) :
    (apply_grading_update g (submission_dict_base sid qid qt ans qm sub)).session_id =
      (apply_grading_update g (submission_dict_base sid qid qt ans qm sub')).session_id ∧
    (apply_grading_update g (submission_dict_base sid qid qt ans qm sub)).question_id =
      (apply_grading_update g (submission_dict_base sid qid qt ans qm sub')).question_id ∧
    (apply_grading_update g (submission_dict_base sid qid qt ans qm sub)).question_type =
      (apply_grading_update g (submission_dict_base sid qid qt ans qm sub')).question_type ∧
    (apply_grading_update g (submission_dict_base sid qid qt ans qm sub)).code_answer =
      (apply_grading_update g (submission_dict_base sid qid qt ans qm sub')).code_answer ∧
    (apply_grading_update g (submission_dict_base sid qid qt ans qm sub)).mcq_selected_options =
      (apply_grading_update g (submission_dict_base sid qid qt ans qm sub')).mcq_selected_options ∧
    (apply_grading_update g (submission_dict_base sid qid qt ans qm sub)).text_answer =
      (apply_grading_update g (submission_dict_base sid qid qt ans qm sub')).text_answer ∧
    (apply_grading_update g (submission_dict_base sid qid qt ans qm sub)).max_marks =
      (apply_grading_update g (submission_dict_base sid qid qt ans qm sub')).max_marks ∧
    (apply_grading_update g (submission_dict_base sid qid qt ans qm sub)).status =
      (apply_grading_update g (submission_dict_base sid qid qt ans qm sub')).status ∧
    (apply_grading_update g (submission_dict_base sid qid qt ans qm sub)).execution_error =
      (apply_grading_update g (submission_dict_base sid qid qt ans qm sub')).execution_error ∧
    (apply_grading_update g (submission_dict_base sid qid qt ans qm sub)).execution_output =
      (apply_grading_update g (submission_dict_base sid qid qt ans qm sub')).execution_output ∧
    (apply_grading_update g (submission_dict_base sid qid qt ans qm sub)).is_correct =
      (apply_grading_update g (submission_dict_base sid qid qt ans qm sub')).is_correct ∧
    (apply_grading_update g (submission_dict_base sid qid qt ans qm sub)).marks_obtained =
      (apply_grading_update g (submission_dict_base sid qid qt ans qm sub')).marks_obtained ∧
    (apply_grading_update g (submission_dict_base sid qid qt ans qm sub)).test_cases_passed =
      (apply_grading_update g (submission_dict_base sid qid qt ans qm sub')).test_cases_passed ∧
    (apply_grading_update g (submission_dict_base sid qid qt ans qm sub)).test_cases_total =
      (apply_grading_update g (submission_dict_base sid qid qt ans qm sub')).test_cases_total ∧
    (apply_grading_update g (submission_dict_base sid qid qt ans qm sub)).grader_feedback =
      (apply_grading_update g (submission_dict_base sid qid qt ans qm sub')).grader_feedback ∧
    (apply_grading_update g (submission_dict_base sid qid qt ans qm sub)).auto_graded =
      (apply_grading_update g (submission_dict_base sid qid qt ans qm sub')).auto_graded := by
  obtain ⟨v, hv⟩ := Option.isSome_iff_exists.mp hag
  simp [apply_grading_update, submission_dict_base, hv]


theorem filter_map_update (p : Submission → Bool) (f : Submission → Submission)
    (old : Submission) (hp : p (f old) = true) (hpold : p old = true) :
    ∀ l : List Submission, l.filter p = [old] →
      (∀ r ∈ l, r.id = old.id → r = old) →
      (l.map (fun s => if s.id == old.id then f s else s)).filter p = [f old] := by
  intro l
  induction l with
  | nil =>
    intro hfil _
    simp at hfil
  | cons a t ih =>
    intro hfil huniq
    by_cases hpa : p a = true
    · rw [List.filter_cons_of_pos hpa] at hfil
      obtain ⟨haold, htnil⟩ := List.cons.inj hfil
      subst haold
      rw [List.map_cons, if_pos (by simp)]
      rw [List.filter_cons_of_pos hp]
      have hmap : t.map (fun s => if s.id == a.id then f s else s) = t := by
        rw [show t.map (fun s => if s.id == a.id then f s else s) = t.map id from ?_, List.map_id]
        apply List.map_congr_left
        intro s hs
        have hsid : ¬ s.id = a.id := by
          intro h
          have hsa : s = a := huniq s (List.mem_cons_of_mem a hs) h
          subst hsa
          have : s ∈ t.filter p := List.mem_filter.mpr ⟨hs, hpa⟩
          rw [htnil] at this
          cases this
        simp [hsid]
      rw [hmap, htnil]
    · rw [List.filter_cons_of_neg (by simpa using hpa)] at hfil
      have hanid : ¬ a.id = old.id := by
        intro h
        exact hpa (by rw [huniq a (List.mem_cons_self a t) h]; exact hpold)
      rw [List.map_cons, if_neg (by simpa using hanid)]
      rw [List.filter_cons_of_neg (by simpa using hpa)]
      exact ih hfil (fun r hr h => huniq r (List.mem_cons_of_mem a hr) h)


theorem find?_id_map_update (l : List Submission) (i : Nat) (f : Submission → Submission)
    (hf : ∀ s, (f s).id = s.id) (old : Submission)
    (h : l.find? (fun s => s.id == i) = some old) :
    (l.map (fun s => if s.id == i then f s else s)).find? (fun s => s.id == i) =
      some (if old.id == i then f old else old) := by
  rw [List.find?_map]
  have hp : ((fun s => s.id == i) ∘ (fun s : Submission => if s.id == i then f s else s)) =
      (fun s : Submission => s.id == i) := by
    funext s
    by_cases hc : s.id = i
    · simp [hc, hf]
    · simp [hc]
  rw [hp, h]
  rfl


/-- Helper (update path of the upsert): when a single prior row exists for
the (session, question) pair and row ids are unique, submit_answer keeps the
row count, rewrites that row to the cleared-then-graded record built from the
new answer, and returns exactly that record. -/
theorem submit_answer_resubmit_row (oracle : SandboxOracle) (db db0 : Db) (tok : String) (now : Nat)
    (qid : Nat) (ans : AnswerData) (session : Session) (question : Question)
    (g : GradingResult)
    (hv : validate_session db tok now = (SessValidation.valid session, db0))
    (hq : db0.questions.find? (fun q => q.id == qid) = some question)
    (hg : grade_submission oracle question ans = Except.ok g) :
    (∀ old, db0.submissions.filter
        (fun s => s.session_id == session.id && s.question_id == qid) = [old] →
      (∀ r ∈ db0.submissions, r.id = old.id → r = old) →
      (submit_answer oracle db tok now qid ans).2.submissions.length =
        db0.submissions.length ∧
      (submit_answer oracle db tok now qid ans).2.submissions.filter
          (fun s => s.session_id == session.id && s.question_id == qid) =
        [apply_grading_update g (submission_dict_base session.id qid
          question.question_type ans question.marks old)] ∧
      (submit_answer oracle db tok now qid ans).1 =
        Except.ok (apply_grading_update g (submission_dict_base session.id qid
          question.question_type ans question.marks old))) := by
  intro old hex huniq
  have hmem : old ∈ db0.submissions := by
    have h1 : old ∈ db0.submissions.filter
        (fun s => s.session_id == session.id && s.question_id == qid) := by
      rw [hex]
      exact List.mem_singleton.mpr rfl
    exact List.mem_of_mem_filter h1
  have hpold : (old.session_id == session.id && old.question_id == qid) = true := by
    have h1 : old ∈ db0.submissions.filter
        (fun s => s.session_id == session.id && s.question_id == qid) := by
      rw [hex]
      exact List.mem_singleton.mpr rfl
    exact (List.mem_filter.mp h1).2
  have hfind0 : db0.submissions.find? (fun s => s.id == old.id) = some old :=
    find?_id_of_filter_uniq db0.submissions old huniq hmem
  have hcomb : (db0.submissions.map (fun s => if s.id == old.id then
        submission_dict_base session.id qid question.question_type ans question.marks s
      else s)).map (fun s => if s.id == old.id then apply_grading_update g s else s) =
      db0.submissions.map (fun s => if s.id == old.id then
        apply_grading_update g (submission_dict_base session.id qid
          question.question_type ans question.marks s)
      else s) := by
    rw [List.map_map]
    apply List.map_congr_left
    intro s _
    by_cases h : s.id = old.id
    · simp [Function.comp, h, submission_dict_base]
    · simp [Function.comp, h]
  have hfind1 : (db0.submissions.map (fun s => if s.id == old.id then
        apply_grading_update g (submission_dict_base session.id qid
          question.question_type ans question.marks s)
      else s)).find? (fun s => s.id == old.id) =
      some (apply_grading_update g (submission_dict_base session.id qid
        question.question_type ans question.marks old)) := by
    rw [find?_id_map_update db0.submissions old.id
      (fun s => apply_grading_update g (submission_dict_base session.id qid
        question.question_type ans question.marks s)) (fun s => rfl) old hfind0]
    rw [if_pos (by simp)]
  have hfilter1 : (db0.submissions.map (fun s => if s.id == old.id then
        apply_grading_update g (submission_dict_base session.id qid
          question.question_type ans question.marks s)
      else s)).filter (fun s => s.session_id == session.id && s.question_id == qid) =
      [apply_grading_update g (submission_dict_base session.id qid
        question.question_type ans question.marks old)] :=
    filter_map_update _ _ old (by simp [apply_grading_update, submission_dict_base])
      hpold db0.submissions hex huniq
  unfold submit_answer
  rw [hv]
  simp only []
  rw [hq]
  simp only []
  rw [hex]
  simp only []
  rw [hg]
  simp only []
  simp only [calculate_session_score_submissions]
  simp only [hcomb]
  simp only [hfind1]
  refine ⟨by rw [calculate_session_score_submissions]; simp, hfilter1, trivial⟩


theorem find?_append_none {α : Type} (p : α → Bool) (l1 l2 : List α)
    (h : l1.find? p = none) : (l1 ++ l2).find? p = l2.find? p := by
  induction l1 with
  | nil => rfl
  | cons a t ih =>
    rw [List.find?_cons] at h
    cases hpa : p a with
    | true => rw [hpa] at h; cases h
    | false =>
      rw [hpa] at h
      rw [List.cons_append, List.find?_cons, hpa]
      exact ih h


theorem apply_grading_update_id (g : GradingResult) (sub : Submission) :
    (apply_grading_update g sub).id = sub.id := rfl


/-- Helper (insert path of the upsert): when no prior row exists for the
(session, question) pair and the fresh id is unused, submit_answer appends
exactly one row for the pair. -/
theorem submit_answer_first_row (oracle : SandboxOracle) (db db0 : Db) (tok : String) (now : Nat)
    (qid : Nat) (ans : AnswerData) (session : Session) (question : Question)
    (g : GradingResult)
    (hv : validate_session db tok now = (SessValidation.valid session, db0))
    (hq : db0.questions.find? (fun q => q.id == qid) = some question)
    (hg : grade_submission oracle question ans = Except.ok g)
    (hefil : db0.submissions.filter
        (fun s => s.session_id == session.id && s.question_id == qid) = [])
    (hfresh : ∀ r ∈ db0.submissions, r.id ≠ db0.next_id) :
    (submit_answer oracle db tok now qid ans).2.submissions.length =
      db0.submissions.length + 1 ∧
    ((submit_answer oracle db tok now qid ans).2.submissions.filter
      (fun s => s.session_id == session.id && s.question_id == qid)).length = 1 := by
  have hmapid : ∀ (f : Submission → Submission),
      db0.submissions.map (fun s => if s.id == db0.next_id then f s else s) =
      db0.submissions := by
    intro f
    rw [show db0.submissions.map (fun s => if s.id == db0.next_id then f s else s) =
        db0.submissions.map id from ?_, List.map_id]
    apply List.map_congr_left
    intro s hs
    simp [hfresh s hs]
  unfold submit_answer
  rw [hv]
  simp only []
  rw [hq]
  simp only []
  rw [hefil]
  simp only []
  rw [hg]
  simp only []
  simp only [calculate_session_score_submissions]
  rw [List.map_append, hmapid]
  simp only [List.map_cons, List.map_nil]
  rw [if_pos (by simp)]
  rw [find?_append_none _ _ _ (List.find?_eq_none.mpr (fun x hx => by simp [hfresh x hx]))]
  simp only [List.find?_cons]
  simp only [apply_grading_update_id, beq_self_eq_true]
  constructor
  · rw [calculate_session_score_submissions]
    simp
  · rw [calculate_session_score_submissions]
    rw [List.filter_append, hefil]
    simp [apply_grading_update, submission_dict_base]


/-- C3: submit_answer upserts per (session, question) pair. With a single
prior row (and unique ids) the second submit updates that row in place —
the row count is unchanged, the pair has exactly the rewritten row, and the
rewritten row is apply_grading_update of the new grading over the cleared
base built from the prior row; with no prior row exactly one row is
inserted. Every column in rescored_fields — all grading fields except the
row id, manually_graded and execution_time_ms — depends only on the new
answer's grading, not on the prior row. The claim's stronger reading (no
residual grading value at all) fails for execution_time_ms, which the
clearing dict omits: see the counterexample. -/
theorem C3_submission_upsert (oracle : SandboxOracle) (db db0 : Db) (tok : String)
    (now : Nat) (qid : Nat) (ans : AnswerData) (session : Session) (question : Question)
    (g : GradingResult)
    (hv : validate_session db tok now = (SessValidation.valid session, db0))
    (hq : db0.questions.find? (fun q => q.id == qid) = some question)
    (hg : grade_submission oracle question ans = Except.ok g) :
    (∀ old, db0.submissions.filter
        (fun s => s.session_id == session.id && s.question_id == qid) = [old] →
      (∀ r ∈ db0.submissions, r.id = old.id → r = old) →
      (submit_answer oracle db tok now qid ans).2.submissions.length =
        db0.submissions.length ∧
      (submit_answer oracle db tok now qid ans).2.submissions.filter
          (fun s => s.session_id == session.id && s.question_id == qid) =
        [apply_grading_update g (submission_dict_base session.id qid
          question.question_type ans question.marks old)] ∧
      (submit_answer oracle db tok now qid ans).1 =
        Except.ok (apply_grading_update g (submission_dict_base session.id qid
          question.question_type ans question.marks old))) ∧
    (db0.submissions.filter
        (fun s => s.session_id == session.id && s.question_id == qid) = [] →
      (∀ r ∈ db0.submissions, r.id ≠ db0.next_id) →
      (submit_answer oracle db tok now qid ans).2.submissions.length =
        db0.submissions.length + 1 ∧
      ((submit_answer oracle db tok now qid ans).2.submissions.filter
        (fun s => s.session_id == session.id && s.question_id == qid)).length = 1) ∧
    (∀ sub sub' : Submission,
      rescored_fields (apply_grading_update g (submission_dict_base session.id qid
        question.question_type ans question.marks sub)) =
      rescored_fields (apply_grading_update g (submission_dict_base session.id qid
        question.question_type ans question.marks sub'))) := by
  refine ⟨submit_answer_resubmit_row oracle db db0 tok now qid ans session question g
      hv hq hg,
    fun h1 h2 => submit_answer_first_row oracle db db0 tok now qid ans session question g
      hv hq hg h1 h2, ?_⟩
  intro sub sub'
  obtain ⟨v, hval⟩ := Option.isSome_iff_exists.mp
    (grade_submission_auto_graded oracle question ans g hg)
  simp [rescored_fields, apply_grading_update, submission_dict_base, hval]


/-- C3 witness: in the concrete scenario the hypotheses hold and a first
submit inserts exactly one row. -/
theorem C3_submission_upsert_witness :
    validate_session dbC3 "session_c3" 100 = (SessValidation.valid sessC3, db0C3) ∧
    List.find? (fun q => q.id == 42) db0C3.questions = some qPy ∧
    grade_submission oracleC3 qPy ansC3a = Except.ok gC3 ∧
    db0C3.submissions.filter
      (fun s => s.session_id == sessC3.id && s.question_id == 42) = [] ∧
    (submit_answer oracleC3 dbC3 "session_c3" 100 42 ansC3a).2.submissions.length =
      db0C3.submissions.length + 1 := by
  refine ⟨rfl, rfl, rfl, rfl, ?_⟩
  exact ((C3_submission_upsert oracleC3 dbC3 db0C3 "session_c3" 100 42 ansC3a sessC3
    qPy gC3 rfl rfl rfl).2.1 rfl (fun r hr => absurd hr (by simp [db0C3, dbC3]))).1


/-- C3 counterexample: submitting working code and then resubmitting empty
code leaves execution_time_ms = 7 from the first grading pass on the single
row, while submitting the empty code alone leaves it none — a residual
grading value from the first pass, contradicting the claim that every
grading field reflects only the second answer. -/
theorem C3_counterexample :
    ((submit_answer oracleC3 (submit_answer oracleC3 dbC3 "session_c3" 100 42 ansC3a).2
        "session_c3" 101 42 ansC3b).2.submissions.map
      (fun s => (s.question_id, s.status, s.execution_time_ms))) =
      [(42, "graded", some 7)] ∧
    ((submit_answer oracleC3 dbC3 "session_c3" 100 42 ansC3b).2.submissions.map
      (fun s => (s.question_id, s.status, s.execution_time_ms))) =
      [(42, "graded", none)] := by
  exact ⟨by decide, by decide⟩
